import Mathlib

/-!
# Verification of the `ivande_combiner` tabular-preprocessing library

Shallow embedding of `src/ivande_combiner/transformers.py` and
`src/ivande_combiner/utils.py`.  A pandas `DataFrame` is modelled as an
ordered list of named columns (`Table`); each column carries a dtype tag
and a list of cell values.  Machine floats in the source only ever hold
the exact results of rational arithmetic on the claim inputs, so cells
are modelled with `ℚ`.  Python exceptions (`ValueError`, `NotFittedError`,
`KeyError`, `AttributeError`) are modelled with `Except Err`.

Each transformer class becomes a structure whose fields mirror the Python
attributes; `__init__` becomes a `mk…` function (returning `Except` when
the source constructor can raise), `fit` and `transform` become functions
on the structure.  `transform` bodies are embedded as a list of
assignment operations (`Op`) over the two data-frame variables of the
source body (`X`, the input object of the caller, and `X_`, the local copy),
so that which variable each source statement writes to is part of the
embedding; the returned pair is (final value of `X`, final value of `X_`).
-/

set_option linter.unusedVariables false

/-- Python exceptions raised by the library. -/
inductive Err where
  | valueError (msg : String)
  | notFitted (msg : String)
  | keyError (msg : String)
  | attributeError (msg : String)
deriving DecidableEq

/-- Column dtype: pandas object/numeric dtypes are `plain`; `astype("category")`
produces `category`. -/
inductive Dtype where
  | plain
  | category
deriving DecidableEq

/-- A cell value: a number, a string, a date (year, month, day), or null (NaN).
`pd.to_datetime` string parsing is not re-implemented: a "parseable date
column" is represented by cells that are already `Val.date`. -/
inductive Val where
  | num (q : ℚ)
  | str (s : String)
  | date (y : Int) (m : Nat) (d : Nat)
  | null
deriving DecidableEq

/-- A named column of a data frame. -/
structure Col where
  name : String
  dtype : Dtype
  cells : List Val
deriving DecidableEq

/-- A pandas `DataFrame`: ordered sequence of named columns. -/
abbrev Table := List Col

/-- The `X.columns` as a list of names. -/
def columnNames (T : Table) : List String :=
  T.map (fun c => c.name)

/-- Look up a column by name (first match, like a pandas unique-label lookup). -/
def getCol? (T : Table) (cn : String) : Option Col :=
  T.find? (fun c => c.name == cn)

/-- Column lookup with an empty-column default (used only where the source
guarantees presence). -/
def getColD (T : Table) (cn : String) : Col :=
  (getCol? T cn).getD ⟨cn, Dtype.plain, []⟩

/-- The `X[cn]` read access: `KeyError` when the column is absent. -/
def getColE (T : Table) (cn : String) : Except Err Col :=
  match getCol? T cn with
  | some c => Except.ok c
  | none => Except.error (Err.keyError cn)

/-- The `X_[cn] = col` column assignment: replaces the column named `cn` in place
(keeping its position) or appends it at the end when absent. -/
def setCol (T : Table) (c : Col) : Table :=
  if (columnNames T).contains c.name then
    T.map (fun c0 => if c0.name == c.name then c else c0)
  else
    T ++ [c]

/-- The `X[names]` column-list selection, in the requested order; `KeyError` when a
requested column is absent. -/
def selectCols (T : Table) (names : List String) : Except Err Table :=
  names.mapM (fun n => getColE T n)

/-- The `X.drop(names, axis=1)`: removes the listed columns; `KeyError` when a
listed column is absent (pandas default `errors="raise"`). -/
def dropCols (T : Table) (names : List String) : Except Err Table :=
  if names.all (fun n => (columnNames T).contains n) then
    Except.ok (T.filter (fun c => ¬ names.contains c.name))
  else
    Except.error (Err.keyError "label not found in axis")

/-- The `X.drop(cn, axis=1)` for a single label. -/
def dropCol (T : Table) (cn : String) : Except Err Table :=
  dropCols T [cn]

/-- The `utils.check_transform` (utils.py lines 10-14).  the `isinstance(X, pd.DataFrame)` test of `check_fill` cannot fail in this typed embedding where
every argument is a `Table`, so only the not-fitted branch remains.
`fitted_falsy` is the Python truth value of `not fitted_item` at the call
site (None, `[]` and `{}` are falsy). -/
def check_transform (is_check_fill : Bool) (fitted_falsy : Bool)
    (transformer_name : String) : Except Err Unit :=
  if is_check_fill && fitted_falsy then
    Except.error (Err.notFitted (transformer_name ++ " transformer was not fitted"))
  else
    Except.ok ()

/-- Python truthiness of an optional list (`None` and `[]` are falsy). -/
def optListFalsy {α : Type} : Option (List α) → Bool
  | none => true
  | some [] => true
  | some (_ :: _) => false

/-! ## Transform bodies as assignment sequences

A `transform` body manipulates two data-frame variables: `X` (the object of
the caller) and `X_` (the local result, usually created by `X.copy()`).  Each
source statement that (re)binds or mutates one of them becomes one `Op`
naming its target variable; the update function receives the current values
of both variables.  `runOps` executes the body and returns the final values
of both variables, so non-mutation of the input is a provable property of
the body rather than an assumption. -/

/-- The two data-frame variables of a transform body. -/
inductive PVar where
  | inp
  | work
deriving DecidableEq

/-- One assignment statement: target variable and update computed from the
current values of (`X`, `X_`). -/
structure Op where
  tgt : PVar
  upd : Table → Table → Except Err Table

/-- Run a body; returns (final `X`, final `X_`). -/
def runOps : List Op → Table → Table → Except Err (Table × Table)
  | [], inp, work => Except.ok (inp, work)
  | op :: ops, inp, work =>
    match op.upd inp work with
    | Except.error e => Except.error e
    | Except.ok v =>
      match op.tgt with
      | PVar.inp => runOps ops v work
      | PVar.work => runOps ops inp v

/-- The `X.copy()` (deep copy): in value semantics the copied value, with the
aliasing break recorded by the op targeting `work`. -/
def tableCopy (T : Table) : Table := T

/-! ## Calendar arithmetic (pandas `.dt` accessors)

The source reads `dt.year`, `dt.month`, `dt.day`, `dt.dayofweek`
(Monday = 0), `dt.dayofyear` (1-based) and `isocalendar().week`; these
standard Gregorian-calendar functions are implemented here. -/

def isLeap (y : Int) : Bool :=
  y % 4 == 0 && (y % 100 != 0 || y % 400 == 0)

def daysInMonth (y : Int) (m : Nat) : Nat :=
  match m with
  | 1 => 31
  | 2 => if isLeap y then 29 else 28
  | 3 => 31
  | 4 => 30
  | 5 => 31
  | 6 => 30
  | 7 => 31
  | 8 => 31
  | 9 => 30
  | 10 => 31
  | 11 => 30
  | 12 => 31
  | _ => 0

/-- The `dt.dayofyear`: 1-based ordinal day within the year. -/
def dayOfYear (y : Int) (m : Nat) (d : Nat) : Nat :=
  (List.range (m - 1)).foldl (fun acc i => acc + daysInMonth y (i + 1)) 0 + d

/-- Days since 1970-01-01 (the Howard Hinnant `days_from_civil` algorithm,
using a March-based year: `era` is the 400-year cycle, `yoe` the year of
era, `doy` the day of the March-based year, `doe` the day of era). -/
def daysFromCivil (y : Int) (m : Nat) (d : Nat) : Int :=
  let yAdj : Int := if m ≤ 2 then y - 1 else y
  let era : Int := Int.fdiv yAdj 400
  let yoe : Int := yAdj - era * 400
  let doy : Int := (153 * (Int.ofNat m + (if m > 2 then -3 else 9)) + 2) / 5
    + Int.ofNat d - 1
  let doe : Int := yoe * 365 + yoe / 4 - yoe / 100 + doy
  era * 146097 + doe - 719468

/-- The `dt.dayofweek`: Monday = 0 .. Sunday = 6 (1970-01-01 was a Thursday). -/
def dayOfWeek (y : Int) (m : Nat) (d : Nat) : Nat :=
  ((daysFromCivil y m d + 3).emod 7).toNat

/-- Number of ISO weeks in a year: 53 when Jan 1 falls on a Thursday, or on a
Wednesday of a leap year; 52 otherwise. -/
def isoWeeksInYear (y : Int) : Nat :=
  if dayOfWeek y 1 1 == 3 || (isLeap y && dayOfWeek y 1 1 == 2) then 53 else 52

/-- The `isocalendar().week`: ISO-8601 week number. -/
def weekOfYear (y : Int) (m : Nat) (d : Nat) : Nat :=
  if (dayOfYear y m d + 10 - (dayOfWeek y m d + 1)) / 7 == 0 then
    isoWeeksInYear (y - 1)
  else if (dayOfYear y m d + 10 - (dayOfWeek y m d + 1)) / 7 == 53
      && isoWeeksInYear y == 52 then
    1
  else
    (dayOfYear y m d + 10 - (dayOfWeek y m d + 1)) / 7


/-! ## CalendarExtractor (transformers.py lines 9-70) -/

structure CalendarExtractor where
  date_col : String
  calendar_level : Option Nat
deriving DecidableEq

/-- The `CalendarExtractor.fit` (line 26-27): a no-op returning `self`. -/
def CalendarExtractor.fit (i : CalendarExtractor) (X : Table) : CalendarExtractor :=
  i

/-- The fixed `what_to_generate` list (line 36). -/
def whatToGenerate : List String :=
  ["year", "month", "day", "dayofweek", "dayofyear", "weekofyear"]

/-- The `pd.to_datetime(X_[date_col])` applied to the cells of the column: cells that
are already dates parse to themselves, anything else fails to parse. -/
def parseDates (cells : List Val) : Except Err (List (Int × Nat × Nat)) :=
  cells.mapM (fun v =>
    match v with
    | Val.date y m d => Except.ok (y, m, d)
    | _ => Except.error (Err.valueError "could not convert to datetime"))

/-- One iteration of the generation loop (lines 40-65): the columns the
iteration appends to `cols_to_add`.  Every known field appends exactly one
named column, except `"weekofyear"` (lines 61-63): the source computes
`weekofyear_col` and names it but contains no `cols_to_add.append` for it,
so that iteration appends nothing.  An unknown field name raises
`ValueError` (line 65). -/
def calFieldCols (dates : List (Int × Nat × Nat)) (what : String) :
    Except Err (List Col) :=
  if what == "year" then
    Except.ok [⟨"year", Dtype.plain, dates.map (fun p => Val.num (p.1 : ℚ))⟩]
  else if what == "month" then
    Except.ok [⟨"month", Dtype.plain, dates.map (fun p => Val.num (p.2.1 : ℚ))⟩]
  else if what == "day" then
    Except.ok [⟨"day", Dtype.plain, dates.map (fun p => Val.num (p.2.2 : ℚ))⟩]
  else if what == "dayofweek" then
    Except.ok [⟨"dayofweek", Dtype.plain,
      dates.map (fun p => Val.num (dayOfWeek p.1 p.2.1 p.2.2 : ℚ))⟩]
  else if what == "dayofyear" then
    Except.ok [⟨"dayofyear", Dtype.plain,
      dates.map (fun p => Val.num (dayOfYear p.1 p.2.1 p.2.2 : ℚ))⟩]
  else if what == "weekofyear" then
    Except.ok []
  else
    Except.error (Err.valueError
      ("Unknown parameter " ++ what ++ " in what_to_generate"))

/-- The `cols_to_add` list accumulated by the loop, for the selected fields
(`what_to_generate[: calendar_level]` when the level is set, line 37-38). -/
def calColsToAdd (dates : List (Int × Nat × Nat)) (lvl : Option Nat) :
    Except Err (List Col) := do
  let sel := match lvl with
    | none => whatToGenerate
    | some k => whatToGenerate.take k
  let colss ← sel.mapM (fun what => calFieldCols dates what)
  Except.ok colss.flatten

/-- Body of `CalendarExtractor.transform` (lines 32-68) as ops on (`X`, `X_`):
`X_ = X.copy()`; `X_[date_col] = pd.to_datetime(X_[date_col])`; then the
generation loop, the in-place `X_.drop(date_col)` and the final
`pd.concat([X_, *cols_to_add])`, all writing `X_`. -/
def calendarOps (i : CalendarExtractor) : List Op :=
  [ ⟨PVar.work, fun x _ => Except.ok (tableCopy x)⟩,
    ⟨PVar.work, fun _ w => do
      let c ← getColE w i.date_col
      let dates ← parseDates c.cells
      Except.ok (setCol w ⟨i.date_col, c.dtype, dates.map (fun p => Val.date p.1 p.2.1 p.2.2)⟩)⟩,
    ⟨PVar.work, fun _ w => do
      let c ← getColE w i.date_col
      let dates ← parseDates c.cells
      let colsToAdd ← calColsToAdd dates i.calendar_level
      let dropped ← dropCol w i.date_col
      Except.ok (dropped ++ colsToAdd)⟩ ]

/-- The `CalendarExtractor.transform` (lines 29-70).  `check_transform` is called
with `is_check_fill=False` (line 30), so no not-fitted check happens.
Returns (final `X`, final `X_`). -/
def CalendarExtractor.transform (i : CalendarExtractor) (X : Table) :
    Except Err (Table × Table) := do
  let _ ← check_transform false true ""
  runOps (calendarOps i) X []

/-- The table a caller receives from `transform`. -/
def CalendarExtractor.transformOut (i : CalendarExtractor) (X : Table) :
    Except Err Table :=
  (CalendarExtractor.transform i X).map Prod.snd

/-- Failing input for claim C2: one extra column and a parseable date column,
`calendar_level` unset. -/
def c2Table : Table :=
  [⟨"a", Dtype.plain, [Val.num 7]⟩,
   ⟨"date", Dtype.plain, [Val.date 2022 1 1]⟩]

instance {ε α : Type} [DecidableEq ε] [DecidableEq α] : DecidableEq (Except ε α) := fun x y =>
  match x, y with
  | Except.ok a, Except.ok b =>
    if h : a = b then isTrue (by rw [h])
    else isFalse (fun he => h (by cases he; rfl))
  | Except.error a, Except.error b =>
    if h : a = b then isTrue (by rw [h])
    else isFalse (fun he => h (by cases he; rfl))
  | Except.ok a, Except.error b => isFalse (fun he => by cases he)
  | Except.error a, Except.ok b => isFalse (fun he => by cases he)

/-! ## NoInfoFeatureRemover (transformers.py lines 73-101) -/

structure NoInfoFeatureRemover where
  cols_to_remove : Option (List String)
  cols_to_except : List String
  verbose : Bool
deriving DecidableEq

/-- The `NoInfoFeatureRemover.__init__` (lines 80-83): `cols_to_remove` starts as
`None`; a `None` exempt list becomes `[]`. -/
def mkNoInfoFeatureRemover (cols_to_except : Option (List String))
    (verbose : Bool) : NoInfoFeatureRemover :=
  ⟨none, cols_to_except.getD [], verbose⟩

/-- The `X[col].nunique()`: number of distinct non-null values (pandas default
`dropna=True`). -/
def nunique (cells : List Val) : Nat :=
  ((cells.filter (fun v => v ≠ Val.null)).dedup).length

/-- The `NoInfoFeatureRemover.fit` (lines 85-96): collects, in column order, the
columns with at most one distinct value that are not exempted.  The
`verbose` print (lines 93-94) has no functional effect. -/
def NoInfoFeatureRemover.fit (i : NoInfoFeatureRemover) (X : Table) :
    NoInfoFeatureRemover :=
  { i with cols_to_remove := some ((X.filter (fun c => nunique c.cells ≤ 1 && ¬ i.cols_to_except.contains c.name)).map (fun c => c.name)) }

/-- Body of `NoInfoFeatureRemover.transform` (line 100): the single statement
`X_ = X.drop(self.cols_to_remove, axis=1)`. -/
def noInfoOps (i : NoInfoFeatureRemover) : List Op :=
  [ ⟨PVar.work, fun x _ => dropCols x (i.cols_to_remove.getD [])⟩ ]

/-- The `NoInfoFeatureRemover.transform` (lines 98-101): not-fitted check on the
`cols_to_remove` list (`None` and the empty list are both falsy), then the
drop. -/
def NoInfoFeatureRemover.transform (i : NoInfoFeatureRemover) (X : Table) :
    Except Err (Table × Table) := do
  let _ ← check_transform true (optListFalsy i.cols_to_remove) "NoInfoFeatureRemover"
  runOps (noInfoOps i) X []

def NoInfoFeatureRemover.transformOut (i : NoInfoFeatureRemover) (X : Table) :
    Except Err Table :=
  (NoInfoFeatureRemover.transform i X).map Prod.snd

/-! ## Column statistics (pandas `Series` reductions used by OutlierRemover) -/

/-- The numeric values of a column, in order; nulls (NaN) are skipped, as
pandas reductions (`quantile`, `mean`, `std`, `min`, `max`) do. -/
def colNums (c : Col) : List ℚ :=
  c.cells.filterMap (fun v => match v with | Val.num q => some q | _ => none)

/-- Binary minimum on `ℚ`, written out so that it evaluates by kernel
reduction. -/
def ratMin (a b : ℚ) : ℚ := if a ≤ b then a else b

/-- Binary maximum on `ℚ`. -/
def ratMax (a b : ℚ) : ℚ := if a ≤ b then b else a

/-- The `Series.min()` as an optional value (`none` for an empty series, where
pandas yields NaN). -/
def qmin? : List ℚ → Option ℚ
  | [] => none
  | x :: xs =>
    match qmin? xs with
    | none => some x
    | some m => some (ratMin x m)

/-- The `Series.max()` as an optional value. -/
def qmax? : List ℚ → Option ℚ
  | [] => none
  | x :: xs =>
    match qmax? xs with
    | none => some x
    | some m => some (ratMax x m)

/-- The `Series.quantile(q)` with the pandas default linear interpolation:
at rank `h = q * (n - 1)` between the order statistics.  Defined as `0` on an
empty list (pandas yields NaN there; never reached by the claims). -/
def quantileQ (xs : List ℚ) (q : ℚ) : ℚ :=
  let s := xs.insertionSort (fun a b => a ≤ b)
  if s.length = 0 then 0
  else
    let h : ℚ := q * ((s.length : ℚ) - 1)
    let i : Nat := h.floor.toNat
    let lo := s.getD i 0
    let hi := s.getD (i + 1) lo
    lo + (h - (i : ℚ)) * (hi - lo)

/-- The `Series.mean()` (0 on an empty list, where pandas yields NaN). -/
def meanQ (xs : List ℚ) : ℚ :=
  xs.sum / (xs.length : ℚ)

/-- Sample variance matching the pandas default `Series.std(ddof=1)` squared.
Division by zero (singleton list, where pandas `std` yields NaN) gives 0 in
`ℚ`; never reached by the claims. -/
def sampleVarQ (xs : List ℚ) : ℚ :=
  (xs.map (fun x => (x - meanQ xs) ^ 2)).sum / ((xs.length : ℚ) - 1)

/-! ## OutlierRemover (transformers.py lines 104-160) -/

structure OutlierRemover where
  cols_to_transform : List String
  method : String
  col_thresholds : Option (List (String × Option ℚ × Option ℚ))
deriving DecidableEq

/-- The `OutlierRemover.__init__` (lines 115-120): raises `ValueError` when
`cols_to_transform is None`; any actual list — including the empty list —
is accepted. -/
def mkOutlierRemover (cols_to_transform : Option (List String))
    (method : String) : Except Err OutlierRemover :=
  match cols_to_transform with
  | none => Except.error (Err.valueError "cols_to_transform parameter is should be filled")
  | some cs => Except.ok ⟨cs, method, none⟩

/-- The in-bounds filter of `fit` (lines 128-148): per method, the values `x`
of the column with `left_bound <= x <= right_bound`.
For `"std"` the source bounds are `mean ± 3·std` with `std = sqrt(var)`;
since both sides are non-negative, `mean - 3·std ≤ x ≤ mean + 3·std` is
equivalent to `(x - mean)² ≤ 9·var`, which is the exact `ℚ` form used here.
An unknown method raises `ValueError` (line 146). -/
def fitBoundsFilter (method : String) (xs : List ℚ) : Except Err (List ℚ) :=
  if method == "iqr" then
    Except.ok (xs.filter (fun x =>
      decide (quantileQ xs (1/4) - 3/2 * (quantileQ xs (3/4) - quantileQ xs (1/4)) ≤ x)
      && decide (x ≤ quantileQ xs (3/4) + 3/2 * (quantileQ xs (3/4) - quantileQ xs (1/4)))))
  else if method == "std" then
    Except.ok (xs.filter (fun x => decide ((x - meanQ xs) ^ 2 ≤ 9 * sampleVarQ xs)))
  else if method == "quantile" then
    Except.ok (xs.filter (fun x =>
      decide (quantileQ xs (1/100) ≤ x) && decide (x ≤ quantileQ xs (99/100))))
  else if method == "skip" then
    Except.ok (xs.filter (fun x =>
      match qmin? xs, qmax? xs with
      | some lo, some hi => decide (lo ≤ x) && decide (x ≤ hi)
      | _, _ => false))
  else
    Except.error (Err.valueError ("unknown method " ++ method ++ " for outlier remover"))

/-- The per-column loop of `fit` (lines 127-149): for each configured column
(already filtered to the present ones), store `(s.min(), s.max())` of the
in-bounds values `s`. -/
def outlierThresholds (method : String) (X : Table) :
    List String → Except Err (List (String × Option ℚ × Option ℚ))
  | [] => Except.ok []
  | cn :: rest => do
    let s ← fitBoundsFilter method (colNums (getColD X cn))
    let ths ← outlierThresholds method X rest
    Except.ok ((cn, qmin? s, qmax? s) :: ths)

/-- The `OutlierRemover.fit` (lines 122-151): restricts `cols_to_transform` to the
columns present in `X` (overwriting the configuration, line 124), then
computes the per-column thresholds. -/
def OutlierRemover.fit (i : OutlierRemover) (X : Table) :
    Except Err OutlierRemover := do
  let cols := i.cols_to_transform.filter (fun cn => (columnNames X).contains cn)
  let ths ← outlierThresholds i.method X cols
  Except.ok { i with cols_to_transform := cols, col_thresholds := some ths }

/-- The `self.col_thresholds[col]`: Python dict lookup, `KeyError` when absent. -/
def dictLookup {β : Type} (m : List (String × β)) (k : String) : Except Err β :=
  match m.find? (fun p => p.1 == k) with
  | some p => Except.ok p.2
  | none => Except.error (Err.keyError k)

/-- The `Series.clip(lower, upper)` on one cell: numbers are clamped (upper bound
applied last, as pandas does when the bounds cross); NaN stays NaN, and a
missing (NaN) bound leaves that side unclipped. -/
def clipVal (lo hi : Option ℚ) (v : Val) : Val :=
  match v with
  | Val.num q => Val.num (match lo, hi with
    | some l, some h => ratMin (ratMax q l) h
    | some l, none => ratMax q l
    | none, some h => ratMin q h
    | none, none => q)
  | v => v

/-- Body of `OutlierRemover.transform` (lines 155-158): `X_ = X.copy()`, then
the loop `X_[col] = X_[col].clip(*self.col_thresholds[col])` over
`cols_to_transform`, every statement writing `X_`. -/
def outlierOps (i : OutlierRemover) : List Op :=
  [ ⟨PVar.work, fun x _ => Except.ok (tableCopy x)⟩,
    ⟨PVar.work, fun _ w =>
      i.cols_to_transform.foldlM (fun w cn => do
        let th ← dictLookup (i.col_thresholds.getD []) cn
        let c ← getColE w cn
        Except.ok (setCol w ⟨cn, c.dtype, c.cells.map (clipVal th.1 th.2)⟩)) w⟩ ]

/-- The `OutlierRemover.transform` (lines 153-160): not-fitted check on the
`col_thresholds` dict (`None` and `{}` falsy), then the clipping body. -/
def OutlierRemover.transform (i : OutlierRemover) (X : Table) :
    Except Err (Table × Table) := do
  let _ ← check_transform true (optListFalsy i.col_thresholds) "OutlierRemover"
  runOps (outlierOps i) X []

def OutlierRemover.transformOut (i : OutlierRemover) (X : Table) :
    Except Err Table :=
  (OutlierRemover.transform i X).map Prod.snd

/-! ## WithAnotherColumnImputer (transformers.py lines 163-186) -/

structure WithAnotherColumnImputer where
  cols_to_impute : List (String × String)
deriving DecidableEq

/-- The `WithAnotherColumnImputer.__init__` (lines 169-172): raises `ValueError`
when `cols_to_impute is None`; the dict is modelled as an ordered
association list (target column, source column). -/
def mkWithAnotherColumnImputer (cols_to_impute : Option (List (String × String))) :
    Except Err WithAnotherColumnImputer :=
  match cols_to_impute with
  | none => Except.error (Err.valueError "cols_to_impute parameter is should be filled")
  | some d => Except.ok ⟨d⟩

/-- The `WithAnotherColumnImputer.fit` (lines 174-177): restricts the mapping to
target columns present in `X` (overwriting the configuration). -/
def WithAnotherColumnImputer.fit (i : WithAnotherColumnImputer) (X : Table) :
    WithAnotherColumnImputer :=
  ⟨i.cols_to_impute.filter (fun p => (columnNames X).contains p.1)⟩

/-- The `X_[col].fillna(X_[other])` cells: nulls in the target take the
same-row value of the source column. -/
def fillnaFrom (target source : List Val) : List Val :=
  target.zipWith (fun t s => if t = Val.null then s else t) source

/-- Body of `WithAnotherColumnImputer.transform` (lines 181-184):
`X_ = X.copy()`, then the fill loop over the mapping, writing `X_`. -/
def anotherColOps (i : WithAnotherColumnImputer) : List Op :=
  [ ⟨PVar.work, fun x _ => Except.ok (tableCopy x)⟩,
    ⟨PVar.work, fun _ w =>
      i.cols_to_impute.foldlM (fun w p => do
        let tcol ← getColE w p.1
        let scol ← getColE w p.2
        Except.ok (setCol w ⟨p.1, tcol.dtype, fillnaFrom tcol.cells scol.cells⟩)) w⟩ ]

/-- The `WithAnotherColumnImputer.transform` (lines 179-186): the not-fitted check
receives `self.cols_to_impute` — the constructor-supplied mapping itself —
as `fitted_item`, so it is falsy only when that mapping is empty. -/
def WithAnotherColumnImputer.transform (i : WithAnotherColumnImputer) (X : Table) :
    Except Err (Table × Table) := do
  let _ ← check_transform true (optListFalsy (some i.cols_to_impute))
    "WithAnotherColumnImputer"
  runOps (anotherColOps i) X []

def WithAnotherColumnImputer.transformOut (i : WithAnotherColumnImputer)
    (X : Table) : Except Err Table :=
  (WithAnotherColumnImputer.transform i X).map Prod.snd

/-! ## CatCaster (transformers.py lines 189-207) -/

structure CatCaster where
  cols_to_cast : List String
deriving DecidableEq

/-- The `CatCaster.__init__` (lines 195-196): no validation. -/
def mkCatCaster (cols_to_cast : List String) : CatCaster :=
  ⟨cols_to_cast⟩

/-- The `CatCaster.fit` (lines 198-201): restricts `cols_to_cast` to the columns
present in `X` (overwriting the configuration). -/
def CatCaster.fit (i : CatCaster) (X : Table) : CatCaster :=
  ⟨i.cols_to_cast.filter (fun cn => (columnNames X).contains cn)⟩

/-- Body of `CatCaster.transform` (lines 205-206): `X_ = X.copy()`, then
`X_[cols] = X[cols].astype("category")` — the right-hand side reads the
input `X`, the assignment writes `X_`. -/
def catCasterOps (i : CatCaster) : List Op :=
  [ ⟨PVar.work, fun x _ => Except.ok (tableCopy x)⟩,
    ⟨PVar.work, fun x w => do
      let sub ← selectCols x i.cols_to_cast
      Except.ok (sub.foldl (fun w c => setCol w { c with dtype := Dtype.category }) w)⟩ ]

/-- The `CatCaster.transform` (lines 203-207): `check_transform` is called with
`is_check_fill=False` (line 204), so there is no not-fitted check. -/
def CatCaster.transform (i : CatCaster) (X : Table) :
    Except Err (Table × Table) := do
  let _ ← check_transform false true ""
  runOps (catCasterOps i) X []

def CatCaster.transformOut (i : CatCaster) (X : Table) : Except Err Table :=
  (CatCaster.transform i X).map Prod.snd

/-! ## FeaturesOrder (transformers.py lines 210-229) -/

structure FeaturesOrder where
  features_order : List String
  features_order_ : Option (List String)
deriving DecidableEq

/-- The `FeaturesOrder.__init__` (lines 216-218): stores the desired order;
`features_order_` starts as `None`. -/
def mkFeaturesOrder (features_order : List String) : FeaturesOrder :=
  ⟨features_order, none⟩

/-- The `FeaturesOrder.fit` (lines 220-224): desired columns present in `X`, in
desired order, followed by the remaining columns of `X` in table order. -/
def FeaturesOrder.fit (i : FeaturesOrder) (X : Table) : FeaturesOrder :=
  let head := i.features_order.filter (fun cn => (columnNames X).contains cn)
  let tail := (columnNames X).filter (fun cn => ¬ head.contains cn)
  { i with features_order_ := some (head ++ tail) }

/-- Body of `FeaturesOrder.transform` (line 228): the single statement
`X_ = X[self.features_order_]`. -/
def featuresOrderOps (i : FeaturesOrder) : List Op :=
  [ ⟨PVar.work, fun x _ => selectCols x (i.features_order_.getD [])⟩ ]

/-- The `FeaturesOrder.transform` (lines 226-229): not-fitted check on
`features_order_`, with transformer name `"OrderFeatures"` as in the source. -/
def FeaturesOrder.transform (i : FeaturesOrder) (X : Table) :
    Except Err (Table × Table) := do
  let _ ← check_transform true (optListFalsy i.features_order_) "OrderFeatures"
  runOps (featuresOrderOps i) X []

def FeaturesOrder.transformOut (i : FeaturesOrder) (X : Table) : Except Err Table :=
  (FeaturesOrder.transform i X).map Prod.snd

/-! ## ScalerPicker (transformers.py lines 232-277)

The sklearn scaler objects are outside this repository; a fitted scaler is
modelled as an inert record of the scaler type and the sub-table it was fit
on, and its `transform` method is a parameter (`sem`) of the embedded
`transform`, universally quantified in every theorem about it. -/

inductive ScalerState where
  | skip
  | fitted (scaler_type : String) (data : Table)
deriving DecidableEq

structure ScalerPicker where
  cols_to_scale : List String
  scaler_type : String
  scaler : Option ScalerState
deriving DecidableEq

/-- The `ScalerPicker.__init__` (lines 241-244): no validation; `scaler` starts as
`None`. -/
def mkScalerPicker (cols_to_scale : List String) (scaler_type : String) :
    ScalerPicker :=
  ⟨cols_to_scale, scaler_type, none⟩

/-- The `ScalerPicker._get_scaler_class` (lines 246-258): `some` of the scaler
kind, `none` for `"skip"`, `ValueError` otherwise. -/
def getScalerClass (scaler_type : String) : Except Err (Option String) :=
  if scaler_type == "standard" then Except.ok (some "standard")
  else if scaler_type == "minmax" then Except.ok (some "minmax")
  else if scaler_type == "robust" then Except.ok (some "robust")
  else if scaler_type == "power" then Except.ok (some "power")
  else if scaler_type == "skip" then Except.ok none
  else Except.error (Err.valueError
    ("unknown scaler type " ++ scaler_type ++ " should be standard or minmax"))

/-- The `ScalerPicker.fit` (lines 260-269): restricts `cols_to_scale` to the
present columns (overwriting the configuration), then fits one scaler on
`X[cols]` (the source fits twice, lines 265-266; the second fit overwrites
the first, so one fitted scaler remains) or stores the skip sentinel. -/
def ScalerPicker.fit (i : ScalerPicker) (X : Table) : Except Err ScalerPicker := do
  let cols := i.cols_to_scale.filter (fun cn => (columnNames X).contains cn)
  let k ← getScalerClass i.scaler_type
  match k with
  | some st => do
    let sub ← selectCols X cols
    Except.ok { i with cols_to_scale := cols, scaler := some (ScalerState.fitted st sub) }
  | none =>
    Except.ok { i with cols_to_scale := cols, scaler := some ScalerState.skip }

/-- Python truthiness of `self.scaler`: `None` is falsy; the string `"skip"`
and any fitted scaler object are truthy. -/
def scalerFalsy : Option ScalerState → Bool
  | none => true
  | some _ => false

/-- The `X_[cols] = sub` assignment of a sub-table into the listed columns,
aligning by column name. -/
def assignSub (w : Table) (cols : List String) (sub : Table) : Table :=
  cols.foldl (fun w cn => setCol w (getColD sub cn)) w

/-- Body of `ScalerPicker.transform` (lines 273-277): `X_ = X.copy()`; when
the stored scaler is the `"skip"` sentinel the body returns `X_` right away,
otherwise `X_[cols] = self.scaler.transform(X_[cols])` writes `X_`. -/
def scalerOps (sem : String → Table → Table → Table) (i : ScalerPicker) : List Op :=
  match i.scaler with
  | some (ScalerState.fitted st data) =>
    [ ⟨PVar.work, fun x _ => Except.ok (tableCopy x)⟩,
      ⟨PVar.work, fun _ w => do
        let sub ← selectCols w i.cols_to_scale
        Except.ok (assignSub w i.cols_to_scale (sem st data sub))⟩ ]
  | _ =>
    [ ⟨PVar.work, fun x _ => Except.ok (tableCopy x)⟩ ]

/-- The `ScalerPicker.transform` (lines 271-277): not-fitted check on
`self.scaler` with transformer name `"CustomScaler"`. -/
def ScalerPicker.transform (sem : String → Table → Table → Table)
    (i : ScalerPicker) (X : Table) : Except Err (Table × Table) := do
  let _ ← check_transform true (scalerFalsy i.scaler) "CustomScaler"
  runOps (scalerOps sem i) X []

def ScalerPicker.transformOut (sem : String → Table → Table → Table)
    (i : ScalerPicker) (X : Table) : Except Err Table :=
  (ScalerPicker.transform sem i X).map Prod.snd

/-! ## SimpleImputerPicker (transformers.py lines 280-349)

The sklearn `SimpleImputer` is likewise outside this repository; a fitted
imputer is an inert record (strategy, constant fill value if any, and the
sub-table it was fit on), and its `transform` method is a parameter of the
embedded `transform`. -/

structure FittedImputer where
  strategy : String
  fill_value : Option ℚ
  data : Table
deriving DecidableEq

/-- The `self.imputer`: a dict keyed by column tuples (strategy `"constant"`),
one shared imputer (`"mean"`/`"median"`/`"most_frequent"`), or a dict keyed
by single columns (strategy `"max"`). -/
inductive ImputerState where
  | dictImp (m : List (List String × FittedImputer))
  | sharedImp (f : FittedImputer)
  | maxImp (m : List (String × FittedImputer))
deriving DecidableEq

/-- The constructor configuration: a dict from column-name tuples to fill
values, or a plain list of column names. -/
inductive ImputeCfg where
  | dictCfg (d : List (List String × ℚ))
  | listCfg (l : List String)
deriving DecidableEq

/-- No two of the listed key tuples share a column name. -/
def pairwiseDisjointKeys : List (List String) → Bool
  | [] => true
  | k :: ks =>
    ks.all (fun k2 => k.all (fun x => ¬ k2.contains x)) && pairwiseDisjointKeys ks

/-- Modelled from the spec: `check_key_tuple_empty_intersection` is imported
by `transformers.py` (line 6) from `.utils`, but `utils.py` in the sources
does not define it.  Per the spec it "validates, for `constant`, that the
column-name tuples used as keys are pairwise disjoint (fatal if any two keys
share a column)". -/
def check_key_tuple_empty_intersection (d : List (List String × ℚ)) :
    Except Err Unit :=
  if pairwiseDisjointKeys (d.map (fun p => p.1)) then Except.ok ()
  else Except.error (Err.valueError "key tuples should not intersect")

structure SimpleImputerPicker where
  strategy : String
  cols_to_impute : Option ImputeCfg
  imputer : Option ImputerState
deriving DecidableEq

/-- The `SimpleImputerPicker.__init__` (lines 288-293): when `cols_to_impute` is a
dict, the key tuples are validated for pairwise disjointness; `imputer`
starts as `None`. -/
def mkSimpleImputerPicker (strategy : String) (cols_to_impute : Option ImputeCfg) :
    Except Err SimpleImputerPicker :=
  match cols_to_impute with
  | some (ImputeCfg.dictCfg d) => do
    let _ ← check_key_tuple_empty_intersection d
    Except.ok ⟨strategy, cols_to_impute, none⟩
  | _ => Except.ok ⟨strategy, cols_to_impute, none⟩

/-- The `X.isnull().all().any()` (line 297): some column of `X` is entirely null
(vacuously true for a column with zero rows, as in pandas where `all()` of
an empty mask is `True`). -/
def anyColAllNull (X : Table) : Bool :=
  X.any (fun c => c.cells.all (fun v => v == Val.null))

/-- The constant-strategy loop of `fit` (lines 304-312): for each dict entry,
filter the key tuple to the present columns and, when non-empty, fit one
constant-fill `SimpleImputer` on `X[cols]`. -/
def constantImputers (X : Table) :
    List (List String × ℚ) → Except Err (List (List String × FittedImputer))
  | [] => Except.ok []
  | (cols, fv) :: rest => do
    let cs := cols.filter (fun cn => (columnNames X).contains cn)
    let tail ← constantImputers X rest
    if cs.length ≠ 0 then do
      let sub ← selectCols X cs
      Except.ok ((cs, ⟨"constant", some fv, sub⟩) :: tail)
    else
      Except.ok tail

/-- The max-strategy loop of `fit` (lines 324-329): one constant-fill imputer
per column, with the maximum observed value of that column as fill value. -/
def maxImputers (X : Table) :
    List String → Except Err (List (String × FittedImputer))
  | [] => Except.ok []
  | cn :: rest => do
    let sub ← selectCols X [cn]
    let tail ← maxImputers X rest
    Except.ok ((cn, ⟨"constant", qmax? (colNums (getColD X cn)), sub⟩) :: tail)

/-- The column names a configuration contributes to the list comprehension
`[col for col in self.cols_to_impute if col in X.columns]` (lines 314, 321):
iterating a dict yields its tuple keys, which never compare equal to a
column-name string, so a dict configuration contributes no columns there. -/
def cfgIterCols (cfg : ImputeCfg) (X : Table) : List String :=
  match cfg with
  | ImputeCfg.listCfg l => l.filter (fun cn => (columnNames X).contains cn)
  | ImputeCfg.dictCfg _ => []

/-- The `SimpleImputerPicker.fit` (lines 295-333): first the all-null-column
check over the whole table, then `cols_to_impute` defaults to `X.columns`
(overwriting the configuration, lines 300-301), then the strategy branches.
Strategy `"constant"` with a list configuration calls `.items()` on a list:
`AttributeError`.  An unknown strategy raises `ValueError` (line 331). -/
def SimpleImputerPicker.fit (i : SimpleImputerPicker) (X : Table) :
    Except Err SimpleImputerPicker := do
  if anyColAllNull X then
    Except.error (Err.valueError "there are columns with all missing values")
  else
    let cfg := i.cols_to_impute.getD (ImputeCfg.listCfg (columnNames X))
    if i.strategy == "constant" then
      match cfg with
      | ImputeCfg.dictCfg d => do
        let m ← constantImputers X d
        Except.ok { i with cols_to_impute := some cfg, imputer := some (ImputerState.dictImp m) }
      | ImputeCfg.listCfg _ =>
        Except.error (Err.attributeError "list object has no attribute items")
    else if i.strategy == "mean" || i.strategy == "median" || i.strategy == "most_frequent" then do
      let cols := cfgIterCols cfg X
      let sub ← selectCols X cols
      let st := ImputerState.sharedImp ⟨i.strategy, none, sub⟩
      Except.ok { i with cols_to_impute := some cfg, imputer := some st }
    else if i.strategy == "max" then do
      let cols := cfgIterCols cfg X
      let m ← maxImputers X cols
      Except.ok { i with cols_to_impute := some cfg, imputer := some (ImputerState.maxImp m) }
    else
      Except.error (Err.valueError
        ("unknown strategy " ++ i.strategy ++ " should be constant, mean, median or most_frequent"))

/-- Python truthiness of `self.imputer`: `None` and empty dicts are falsy. -/
def imputerFalsy : Option ImputerState → Bool
  | none => true
  | some (ImputerState.dictImp []) => true
  | some (ImputerState.maxImp []) => true
  | some (ImputerState.dictImp (_ :: _)) => false
  | some (ImputerState.maxImp (_ :: _)) => false
  | some (ImputerState.sharedImp _) => false

/-- Body of `SimpleImputerPicker.transform` (lines 337-347): `X_ = X.copy()`,
then per strategy the imputer applications, every statement writing `X_`.
`sem f sub` models `f.transform(sub)` of the sklearn imputer `f`. -/
def simpleImputerOps (sem : FittedImputer → Table → Table)
    (i : SimpleImputerPicker) : List Op :=
  [ ⟨PVar.work, fun x _ => Except.ok (tableCopy x)⟩,
    ⟨PVar.work, fun _ w =>
      if i.strategy == "constant" then
        match i.imputer with
        | some (ImputerState.dictImp m) =>
          m.foldlM (fun w p => do
            let sub ← selectCols w p.1
            Except.ok (assignSub w p.1 (sem p.2 sub))) w
        | _ => Except.error (Err.attributeError "imputer is not a dict")
      else if i.strategy == "max" then
        match i.imputer with
        | some (ImputerState.maxImp m) =>
          m.foldlM (fun w p => do
            let sub ← selectCols w [p.1]
            Except.ok (assignSub w [p.1] (sem p.2 sub))) w
        | _ => Except.error (Err.attributeError "imputer is not a dict")
      else
        match i.imputer with
        | some (ImputerState.sharedImp f) => Except.ok (sem f w)
        | _ => Except.error (Err.attributeError "imputer is not a fitted imputer")⟩ ]

/-- The `SimpleImputerPicker.transform` (lines 335-349): not-fitted check on
`self.imputer` with transformer name `"ConstantImputer"`. -/
def SimpleImputerPicker.transform (sem : FittedImputer → Table → Table)
    (i : SimpleImputerPicker) (X : Table) : Except Err (Table × Table) := do
  let _ ← check_transform true (imputerFalsy i.imputer) "ConstantImputer"
  runOps (simpleImputerOps sem i) X []

def SimpleImputerPicker.transformOut (sem : FittedImputer → Table → Table)
    (i : SimpleImputerPicker) (X : Table) : Except Err Table :=
  (SimpleImputerPicker.transform sem i X).map Prod.snd

/-- A value lies within an optional pair of clip bounds (a missing bound is
no constraint, matching NaN-bound semantics of `clip`). -/
def withinBounds (lo hi : Option ℚ) (q : ℚ) : Bool :=
  (match lo with
   | none => true
   | some l => decide (l ≤ q)) &&
  (match hi with
   | none => true
   | some h => decide (q ≤ h))

/-- The example column of spec §8, namely `[-51, 1..99, 151]`. -/
def c7Cells : List Val :=
  Val.num (-51) :: ((List.range 99).map (fun k => Val.num ((k : ℚ) + 1)) ++ [Val.num 151])

/-- The expected clipped column `[1, 1..99, 99]`. -/
def c7Expected : List Val :=
  Val.num 1 :: ((List.range 99).map (fun k => Val.num ((k : ℚ) + 1)) ++ [Val.num 99])

/-! ## Sanity checks for the calendar arithmetic (spec §8 example dates) -/

example : dayOfWeek 2022 1 1 = 5 := by decide
example : dayOfWeek 2023 2 28 = 1 := by decide
example : dayOfYear 2023 2 28 = 59 := by decide
example : weekOfYear 2022 1 1 = 52 := by decide
example : weekOfYear 2023 2 28 = 9 := by decide
example : dayOfWeek 1970 1 1 = 3 := by decide

/-! ## Helper lemmas -/

theorem runOps_fst_const (ops : List Op) (h : ∀ op ∈ ops, op.tgt = PVar.work) :
    ∀ inp work, (runOps ops inp work).map Prod.fst =
      (runOps ops inp work).map (fun _ => inp) := by
  induction ops with
  | nil => intro inp work; rfl
  | cons op ops ih =>
    intro inp work
    have htgt : op.tgt = PVar.work := h op (List.mem_cons_self op ops)
    have hrest : ∀ o ∈ ops, o.tgt = PVar.work := by
      intro o ho; exact h o (List.mem_cons_of_mem op ho)
    simp only [runOps]
    cases hupd : op.upd inp work with
    | error e => rfl
    | ok v =>
      rw [htgt]
      exact ih hrest inp v

theorem check_then_runOps_fst (chk : Except Err Unit) (ops : List Op)
    (h : ∀ op ∈ ops, op.tgt = PVar.work) (X : Table) :
    ((do let _ ← chk; runOps ops X ([] : Table)) : Except Err (Table × Table)).map Prod.fst =
      ((do let _ ← chk; runOps ops X ([] : Table)) : Except Err (Table × Table)).map
        (fun _ => X) := by
  cases chk with
  | error e => rfl
  | ok u => exact runOps_fst_const ops h X []

theorem ratMin_choice (a b : ℚ) : ratMin a b = a ∨ ratMin a b = b := by
  unfold ratMin; split <;> simp

theorem ratMax_choice (a b : ℚ) : ratMax a b = a ∨ ratMax a b = b := by
  unfold ratMax; split <;> simp

theorem ratMin_le_left (a b : ℚ) : ratMin a b ≤ a := by
  unfold ratMin; split
  · exact le_refl a
  · next h => exact le_of_lt (lt_of_not_le h)

theorem ratMin_le_right (a b : ℚ) : ratMin a b ≤ b := by
  unfold ratMin; split
  · next h => exact h
  · exact le_refl b

theorem le_ratMax_left (a b : ℚ) : a ≤ ratMax a b := by
  unfold ratMax; split
  · next h => exact h
  · exact le_refl a

theorem le_ratMax_right (a b : ℚ) : b ≤ ratMax a b := by
  unfold ratMax; split
  · exact le_refl b
  · next h => exact le_of_lt (lt_of_not_le h)

theorem ratMax_eq_left {a b : ℚ} (h : b ≤ a) : ratMax a b = a := by
  unfold ratMax; split
  · next h2 => exact le_antisymm h h2
  · rfl

theorem ratMin_eq_left {a b : ℚ} (h : a ≤ b) : ratMin a b = a := by
  unfold ratMin; split
  · rfl
  · next h2 => exact absurd h h2

theorem qmin?_mem : ∀ (xs : List ℚ) (m : ℚ), qmin? xs = some m → m ∈ xs := by
  intro xs
  induction xs with
  | nil => intro m h; simp [qmin?] at h
  | cons x xs ih =>
    intro m h
    simp only [qmin?] at h
    cases hxs : qmin? xs with
    | none =>
      rw [hxs] at h
      simp at h
      simp [h]
    | some m0 =>
      rw [hxs] at h
      simp at h
      rcases ratMin_choice x m0 with hc | hc <;> rw [← h, hc]
      · exact List.mem_cons_self x xs
      · exact List.mem_cons_of_mem x (ih m0 hxs)

theorem qmax?_mem : ∀ (xs : List ℚ) (m : ℚ), qmax? xs = some m → m ∈ xs := by
  intro xs
  induction xs with
  | nil => intro m h; simp [qmax?] at h
  | cons x xs ih =>
    intro m h
    simp only [qmax?] at h
    cases hxs : qmax? xs with
    | none =>
      rw [hxs] at h
      simp at h
      simp [h]
    | some m0 =>
      rw [hxs] at h
      simp at h
      rcases ratMax_choice x m0 with hc | hc <;> rw [← h, hc]
      · exact List.mem_cons_self x xs
      · exact List.mem_cons_of_mem x (ih m0 hxs)

theorem qmin?_le : ∀ (xs : List ℚ) (m : ℚ), qmin? xs = some m → ∀ x ∈ xs, m ≤ x := by
  intro xs
  induction xs with
  | nil => simp
  | cons x xs ih =>
    intro m h y hy
    simp only [qmin?] at h
    cases hxs : qmin? xs with
    | none =>
      rw [hxs] at h
      simp at h
      have hnil : xs = [] := by
        cases hxs2 : xs with
        | nil => rfl
        | cons a l =>
          rw [hxs2] at hxs
          simp only [qmin?] at hxs
          cases hxs3 : qmin? l <;> rw [hxs3] at hxs <;> simp at hxs
      rcases List.mem_cons.mp hy with rfl | hmem
      · rw [← h]
      · rw [hnil] at hmem; simp at hmem
    | some m0 =>
      rw [hxs] at h
      simp at h
      rcases List.mem_cons.mp hy with heq | hmem
      · rw [heq, ← h]; exact ratMin_le_left x m0
      · calc m ≤ m0 := by rw [← h]; exact ratMin_le_right x m0
          _ ≤ y := ih m0 hxs y hmem

theorem qmax?_ge : ∀ (xs : List ℚ) (m : ℚ), qmax? xs = some m → ∀ x ∈ xs, x ≤ m := by
  intro xs
  induction xs with
  | nil => simp
  | cons x xs ih =>
    intro m h y hy
    simp only [qmax?] at h
    cases hxs : qmax? xs with
    | none =>
      rw [hxs] at h
      simp at h
      have hnil : xs = [] := by
        cases hxs2 : xs with
        | nil => rfl
        | cons a l =>
          rw [hxs2] at hxs
          simp only [qmax?] at hxs
          cases hxs3 : qmax? l <;> rw [hxs3] at hxs <;> simp at hxs
      rcases List.mem_cons.mp hy with rfl | hmem
      · rw [← h]
      · rw [hnil] at hmem; simp at hmem
    | some m0 =>
      rw [hxs] at h
      simp at h
      rcases List.mem_cons.mp hy with heq | hmem
      · rw [heq, ← h]; exact le_ratMax_left x m0
      · calc y ≤ m0 := ih m0 hxs y hmem
          _ ≤ m := by rw [← h]; exact le_ratMax_right x m0

theorem exceptBind_error {ε α β : Type} (e : ε) (f : α → Except ε β) :
    (Except.error e >>= f) = Except.error e := rfl

theorem exceptBind_ok {ε α β : Type} (a : α) (f : α → Except ε β) :
    (Except.ok a >>= f) = f a := rfl

theorem qmin?_eq_none {xs : List ℚ} (h : qmin? xs = none) : xs = [] := by
  cases hxs : xs with
  | nil => rfl
  | cons x l =>
    rw [hxs] at h
    simp only [qmin?] at h
    cases h2 : qmin? l <;> rw [h2] at h <;> simp at h

theorem qmax?_eq_none {xs : List ℚ} (h : qmax? xs = none) : xs = [] := by
  cases hxs : xs with
  | nil => rfl
  | cons x l =>
    rw [hxs] at h
    simp only [qmax?] at h
    cases h2 : qmax? l <;> rw [h2] at h <;> simp at h

theorem fitBoundsFilter_skip (xs : List ℚ) :
    fitBoundsFilter "skip" xs = Except.ok xs := by
  have hdef : fitBoundsFilter "skip" xs =
      Except.ok (xs.filter (fun x =>
        match qmin? xs, qmax? xs with
        | some lo, some hi => decide (lo ≤ x) && decide (x ≤ hi)
        | _, _ => false)) := rfl
  rw [hdef]
  cases hmin : qmin? xs with
  | none => rw [qmin?_eq_none hmin]; rfl
  | some lo =>
    cases hmax : qmax? xs with
    | none =>
      exact absurd hmin (by rw [qmax?_eq_none hmax]; simp [qmin?])
    | some hi =>
      simp only [hmin, hmax, Except.ok.injEq]
      apply List.filter_eq_self.mpr
      intro a ha
      simp only [Bool.and_eq_true, decide_eq_true_eq]
      exact ⟨qmin?_le xs lo hmin a ha, qmax?_ge xs hi hmax a ha⟩

theorem outlierThresholds_ok_elim (m : String) (X : Table) :
    ∀ (cols : List String) (ths : List (String × Option ℚ × Option ℚ)),
      outlierThresholds m X cols = Except.ok ths →
      ths.map Prod.fst = cols ∧
      ∀ p ∈ ths, ∃ s, fitBoundsFilter m (colNums (getColD X p.1)) = Except.ok s ∧
        p.2.1 = qmin? s ∧ p.2.2 = qmax? s := by
  intro cols
  induction cols with
  | nil =>
    intro ths h
    simp only [outlierThresholds] at h
    cases h
    simp
  | cons cn rest ih =>
    intro ths h
    simp only [outlierThresholds] at h
    cases hs : fitBoundsFilter m (colNums (getColD X cn)) with
    | error e =>
      rw [hs, exceptBind_error] at h
      exact Except.noConfusion h
    | ok s =>
      rw [hs, exceptBind_ok] at h
      cases hrest : outlierThresholds m X rest with
      | error e =>
        rw [hrest, exceptBind_error] at h
        exact Except.noConfusion h
      | ok tail =>
        rw [hrest, exceptBind_ok] at h
        have h2 : (cn, qmin? s, qmax? s) :: tail = ths := by
          cases h; rfl
        rcases ih tail hrest with ⟨hfst, hmem⟩
        constructor
        · rw [← h2]; simp [hfst]
        · intro p hp
          rw [← h2] at hp
          rcases List.mem_cons.mp hp with heq | hmem2
          · exact ⟨s, by rw [heq]; exact hs, by rw [heq], by rw [heq]⟩
          · exact hmem p hmem2

theorem outlierFit_ok_elim (i i' : OutlierRemover) (X : Table)
    (h : OutlierRemover.fit i X = Except.ok i') :
    i'.cols_to_transform =
      i.cols_to_transform.filter (fun cn => (columnNames X).contains cn) ∧
    i'.method = i.method ∧
    ∃ ths, i'.col_thresholds = some ths ∧
      outlierThresholds i.method X
        (i.cols_to_transform.filter (fun cn => (columnNames X).contains cn)) =
        Except.ok ths := by
  simp only [OutlierRemover.fit] at h
  cases hths : outlierThresholds i.method X
      (i.cols_to_transform.filter (fun cn => (columnNames X).contains cn)) with
  | error e =>
    rw [hths, exceptBind_error] at h
    exact Except.noConfusion h
  | ok ths =>
    rw [hths, exceptBind_ok] at h
    have h2 : OutlierRemover.mk
        (i.cols_to_transform.filter (fun cn => (columnNames X).contains cn))
        i.method (some ths) = i' := by
      cases h; rfl
    rw [← h2]
    exact ⟨rfl, rfl, ths, rfl, rfl⟩

/-! ## Claim C2 -/

/-- Claim C2 (code bug): with `calendar_level` unset the source selects all
six fields, but the `"weekofyear"` iteration computes its column without
appending it to `cols_to_add` (transformers.py lines 61-63), so `transform`
returns only the five columns `year`, `month`, `day`, `dayofweek`,
`dayofyear` after the non-date columns; no `weekofyear` column appears,
contradicting the claim and the class docstring, while the date column is
removed and the column order is as the claim states. -/
theorem claim_C2_weekofyear_dropped :
    CalendarExtractor.transformOut ⟨"date", none⟩ c2Table =
      Except.ok
        [⟨"a", Dtype.plain, [Val.num 7]⟩,
         ⟨"year", Dtype.plain, [Val.num 2022]⟩,
         ⟨"month", Dtype.plain, [Val.num 1]⟩,
         ⟨"day", Dtype.plain, [Val.num 1]⟩,
         ⟨"dayofweek", Dtype.plain, [Val.num 5]⟩,
         ⟨"dayofyear", Dtype.plain, [Val.num 1]⟩] := by
  rfl

/-! ## Claim C1 -/

/-- Claim C1, counterexample: three transformers on which an unfitted
`transform` does NOT raise the Not-Fitted error.  `CatCaster` and
`CalendarExtractor` call `check_transform` with `is_check_fill=False`, so
their unfitted transform succeeds outright; `WithAnotherColumnImputer`
passes the constructor-supplied mapping as `fitted_item`, so with a
non-empty mapping its unfitted transform also succeeds. -/
theorem claim_C1_counterexample :
    CatCaster.transform (mkCatCaster ["a"]) [⟨"a", Dtype.plain, [Val.num 1]⟩] =
      Except.ok ([⟨"a", Dtype.plain, [Val.num 1]⟩],
                 [⟨"a", Dtype.category, [Val.num 1]⟩]) ∧
    CalendarExtractor.transform ⟨"d", none⟩ [⟨"d", Dtype.plain, [Val.date 2022 1 1]⟩] =
      Except.ok ([⟨"d", Dtype.plain, [Val.date 2022 1 1]⟩],
                 [⟨"year", Dtype.plain, [Val.num 2022]⟩,
                  ⟨"month", Dtype.plain, [Val.num 1]⟩,
                  ⟨"day", Dtype.plain, [Val.num 1]⟩,
                  ⟨"dayofweek", Dtype.plain, [Val.num 5]⟩,
                  ⟨"dayofyear", Dtype.plain, [Val.num 1]⟩]) ∧
    ((mkWithAnotherColumnImputer (some [("b", "a")])).bind (fun i =>
      WithAnotherColumnImputer.transform i
        [⟨"a", Dtype.plain, [Val.num 1]⟩, ⟨"b", Dtype.plain, [Val.null]⟩])) =
      Except.ok ([⟨"a", Dtype.plain, [Val.num 1]⟩, ⟨"b", Dtype.plain, [Val.null]⟩],
                 [⟨"a", Dtype.plain, [Val.num 1]⟩, ⟨"b", Dtype.plain, [Val.num 1]⟩]) := by
  exact ⟨rfl, rfl, rfl⟩

/-- Claim C1, amended: an unfitted instance (as the constructor builds it)
raises the Not-Fitted error on `transform`, for every table, for the five
components whose `check_transform` call receives their learned state:
NoInfoFeatureRemover, OutlierRemover, FeaturesOrder, ScalerPicker and
SimpleImputerPicker.  (CatCaster and CalendarExtractor skip the check, and
WithAnotherColumnImputer checks the constructor-supplied mapping instead of
learned state — see the counterexample.) -/
theorem claim_C1_amended :
    (∀ (exc : Option (List String)) (vb : Bool) (T : Table),
      NoInfoFeatureRemover.transform (mkNoInfoFeatureRemover exc vb) T =
        Except.error (Err.notFitted "NoInfoFeatureRemover transformer was not fitted")) ∧
    (∀ (cols : List String) (m : String) (T : Table),
      OutlierRemover.transform ⟨cols, m, none⟩ T =
        Except.error (Err.notFitted "OutlierRemover transformer was not fitted")) ∧
    (∀ (fo : List String) (T : Table),
      FeaturesOrder.transform (mkFeaturesOrder fo) T =
        Except.error (Err.notFitted "OrderFeatures transformer was not fitted")) ∧
    (∀ (sem : String → Table → Table → Table) (cols : List String) (st : String) (T : Table),
      ScalerPicker.transform sem (mkScalerPicker cols st) T =
        Except.error (Err.notFitted "CustomScaler transformer was not fitted")) ∧
    (∀ (sem : FittedImputer → Table → Table) (s : String) (cfg : Option ImputeCfg) (T : Table),
      SimpleImputerPicker.transform sem ⟨s, cfg, none⟩ T =
        Except.error (Err.notFitted "ConstantImputer transformer was not fitted")) := by
  exact ⟨fun _ _ _ => rfl, fun _ _ _ => rfl, fun _ _ => rfl,
         fun _ _ _ _ => rfl, fun _ _ _ _ => rfl⟩

/-! ## Claim C5 -/

/-- Claim C5, counterexample: constructing an `OutlierRemover` with an empty
column list succeeds — the constructor only rejects `None`
(transformers.py line 116 tests `cols_to_transform is None`). -/
theorem claim_C5_counterexample :
    mkOutlierRemover (some []) "iqr" = Except.ok ⟨[], "iqr", none⟩ := rfl

/-- Claim C5, amended: the constructor raises `ValueError` exactly when the
column list is `None`; every actual list, empty or not, is accepted. -/
theorem claim_C5_amended :
    (∀ m : String, mkOutlierRemover none m =
      Except.error (Err.valueError "cols_to_transform parameter is should be filled")) ∧
    (∀ (cs : List String) (m : String),
      mkOutlierRemover (some cs) m = Except.ok ⟨cs, m, none⟩) := by
  exact ⟨fun _ => rfl, fun _ _ => rfl⟩

/-! ## Claim C9 -/

/-- Claim C9, confirmed: when every non-exempted column of the fitting table
has at least two distinct values, `fit` succeeds and learns the empty
removal list, yet a subsequent `transform` — on any table — raises the
Not-Fitted error, because the empty learned list is falsy and therefore
indistinguishable from the never-fitted `None`. -/
theorem claim_C9_fitted_empty_not_fitted (exc : Option (List String)) (vb : Bool)
    (T T2 : Table)
    (h : ∀ c ∈ T, ¬ (exc.getD []).contains c.name → 2 ≤ nunique c.cells) :
    (NoInfoFeatureRemover.fit (mkNoInfoFeatureRemover exc vb) T).cols_to_remove =
      some [] ∧
    NoInfoFeatureRemover.transform
        (NoInfoFeatureRemover.fit (mkNoInfoFeatureRemover exc vb) T) T2 =
      Except.error (Err.notFitted "NoInfoFeatureRemover transformer was not fitted") := by
  have hrem : T.filter (fun c =>
      nunique c.cells ≤ 1 && ¬ (exc.getD []).contains c.name) = [] := by
    apply List.filter_eq_nil_iff.mpr
    intro c hc
    by_cases hexc : (exc.getD []).contains c.name
    · simp only [Bool.and_eq_true, decide_eq_true_eq, not_and]
      intro _
      simpa using hexc
    · have h2 := h c hc hexc
      simp only [Bool.and_eq_true, decide_eq_true_eq, not_and]
      intro h3
      omega
  have hfit : NoInfoFeatureRemover.fit (mkNoInfoFeatureRemover exc vb) T =
      ⟨some [], exc.getD [], vb⟩ := by
    simp only [mkNoInfoFeatureRemover, NoInfoFeatureRemover.fit, hrem, List.map_nil]
  rw [hfit]
  exact ⟨rfl, rfl⟩

/-- Claim C9 witness: two-row table with two distinct values in its single
column; fit learns the empty list, transform raises Not-Fitted. -/
theorem claim_C9_witness :
    (NoInfoFeatureRemover.fit (mkNoInfoFeatureRemover none false)
        [⟨"a", Dtype.plain, [Val.num 1, Val.num 2]⟩]).cols_to_remove = some [] ∧
    NoInfoFeatureRemover.transform
        (NoInfoFeatureRemover.fit (mkNoInfoFeatureRemover none false)
          [⟨"a", Dtype.plain, [Val.num 1, Val.num 2]⟩])
        [⟨"a", Dtype.plain, [Val.num 1, Val.num 2]⟩] =
      Except.error (Err.notFitted "NoInfoFeatureRemover transformer was not fitted") :=
  claim_C9_fitted_empty_not_fitted none false
    [⟨"a", Dtype.plain, [Val.num 1, Val.num 2]⟩]
    [⟨"a", Dtype.plain, [Val.num 1, Val.num 2]⟩]
    (by decide)

/-! ## Claim C3 -/

theorem pairwiseDisjointKeys_iff (ks : List (List String)) :
    pairwiseDisjointKeys ks = true ↔
      List.Pairwise (fun k1 k2 => ∀ x ∈ k1, x ∉ k2) ks := by
  induction ks with
  | nil => simp [pairwiseDisjointKeys]
  | cons k ks ih =>
    simp only [pairwiseDisjointKeys, Bool.and_eq_true, List.pairwise_cons, ih,
      List.all_eq_true, decide_eq_true_eq]
    constructor
    · rintro ⟨h1, h2⟩
      refine ⟨fun k2 hk2 x hx => ?_, h2⟩
      have := h1 k2 hk2 x hx
      simpa [List.elem_iff] using this
    · rintro ⟨h1, h2⟩
      refine ⟨fun k2 hk2 x hx => ?_, h2⟩
      have := h1 k2 hk2 x hx
      simpa [List.elem_iff] using this

/-- Claim C3, confirmed (spec-modelled: `check_key_tuple_empty_intersection`
is missing from `utils.py` and is modelled from the words of the spec).
Constructing a `SimpleImputerPicker` with strategy `"constant"` and a dict
configuration raises the fatal validation error when two key tuples share a
column, and succeeds — with the configuration stored unchanged and no
imputer yet — when the key tuples are pairwise disjoint. -/
theorem claim_C3_constant_keys_disjoint (d : List (List String × ℚ)) :
    (¬ List.Pairwise (fun k1 k2 => ∀ x ∈ k1, x ∉ k2) (d.map Prod.fst) →
      mkSimpleImputerPicker "constant" (some (ImputeCfg.dictCfg d)) =
        Except.error (Err.valueError "key tuples should not intersect")) ∧
    (List.Pairwise (fun k1 k2 => ∀ x ∈ k1, x ∉ k2) (d.map Prod.fst) →
      mkSimpleImputerPicker "constant" (some (ImputeCfg.dictCfg d)) =
        Except.ok ⟨"constant", some (ImputeCfg.dictCfg d), none⟩) := by
  constructor
  · intro h
    have hb : pairwiseDisjointKeys (d.map Prod.fst) = false := by
      rcases Bool.eq_false_or_eq_true (pairwiseDisjointKeys (d.map Prod.fst)) with hb | hb
      · exact absurd ((pairwiseDisjointKeys_iff _).mp hb) h
      · exact hb
    simp only [mkSimpleImputerPicker, check_key_tuple_empty_intersection, hb,
      Bool.false_eq_true, if_false]
    rfl
  · intro h
    have hb : pairwiseDisjointKeys (d.map Prod.fst) = true :=
      (pairwiseDisjointKeys_iff _).mpr h
    simp only [mkSimpleImputerPicker, check_key_tuple_empty_intersection, hb, if_true]
    rfl

/-- Claim C3 witness: keys `("a","b")` and `("b")` overlap and are rejected;
keys `("a")` and `("b")` are disjoint and accepted. -/
theorem claim_C3_witness :
    mkSimpleImputerPicker "constant"
        (some (ImputeCfg.dictCfg [(["a", "b"], 1), (["b"], 2)])) =
      Except.error (Err.valueError "key tuples should not intersect") ∧
    mkSimpleImputerPicker "constant"
        (some (ImputeCfg.dictCfg [(["a"], 1), (["b"], 2)])) =
      Except.ok ⟨"constant", some (ImputeCfg.dictCfg [(["a"], 1), (["b"], 2)]), none⟩ :=
  ⟨(claim_C3_constant_keys_disjoint [(["a", "b"], 1), (["b"], 2)]).1 (by
      intro h
      have := (List.pairwise_cons.mp h).1 ["b"] (by simp) "b" (by simp)
      simp at this),
   (claim_C3_constant_keys_disjoint [(["a"], 1), (["b"], 2)]).2 (by
      refine List.pairwise_cons.mpr ⟨?_, by simp⟩
      intro k2 hk2 x hx
      simp at hk2 hx
      simp [hk2, hx])⟩

/-! ## Claim C4 -/

theorem getCol?_isSome (T : Table) (cn : String)
    (h : (columnNames T).contains cn = true) : ∃ c, getCol? T cn = some c := by
  simp only [columnNames, List.elem_iff, List.mem_map] at h
  rcases h with ⟨c, hc, hname⟩
  simp only [getCol?]
  cases hfind : T.find? (fun c => c.name == cn) with
  | some c0 => exact ⟨c0, rfl⟩
  | none =>
    have := List.find?_eq_none.mp hfind c hc
    simp [hname] at this

theorem selectCols_ok (T : Table) :
    ∀ names : List String, (∀ n ∈ names, (columnNames T).contains n = true) →
      ∃ sub, selectCols T names = Except.ok sub := by
  intro names
  induction names with
  | nil => intro h; exact ⟨[], rfl⟩
  | cons n rest ih =>
    intro h
    rcases getCol?_isSome T n (h n (List.mem_cons_self n rest)) with ⟨c, hc⟩
    rcases ih (fun n2 hn2 => h n2 (List.mem_cons_of_mem n hn2)) with ⟨sub, hsub⟩
    refine ⟨c :: sub, ?_⟩
    have hg : getColE T n = Except.ok c := by simp [getColE, hc]
    simp only [selectCols] at hsub ⊢
    rw [List.mapM_cons, hg, exceptBind_ok, hsub, exceptBind_ok]
    rfl

theorem maxImputers_ok (X : Table) :
    ∀ cols : List String, (∀ cn ∈ cols, (columnNames X).contains cn = true) →
      ∃ m, maxImputers X cols = Except.ok m := by
  intro cols
  induction cols with
  | nil => intro h; exact ⟨[], rfl⟩
  | cons cn rest ih =>
    intro h
    rcases selectCols_ok X [cn] (by
      intro n2 hn2
      rw [List.mem_singleton.mp hn2]
      exact h cn (List.mem_cons_self cn rest)) with ⟨sub, hsub⟩
    rcases ih (fun n2 hn2 => h n2 (List.mem_cons_of_mem cn hn2)) with ⟨m, hm⟩
    refine ⟨(cn, ⟨"constant", qmax? (colNums (getColD X cn)), sub⟩) :: m, ?_⟩
    simp only [maxImputers, hsub, exceptBind_ok, hm]

theorem anyColAllNull_iff (T : Table) :
    anyColAllNull T = true ↔ ∃ c ∈ T, ∀ v ∈ c.cells, v = Val.null := by
  simp [anyColAllNull, List.any_eq_true, List.all_eq_true]

/-- Claim C4, counterexample: with target columns `["a"]` (strategy `"mean"`),
a table whose only entirely-null column is the non-target column `"b"` is
NOT fitted without error — `fit` checks `X.isnull().all().any()` over the
whole table (transformers.py line 297) before restricting to the target
columns, and raises. -/
theorem claim_C4_counterexample :
    ((mkSimpleImputerPicker "mean" (some (ImputeCfg.listCfg ["a"]))).bind
      (fun i => SimpleImputerPicker.fit i
        [⟨"a", Dtype.plain, [Val.num 1]⟩, ⟨"b", Dtype.plain, [Val.null]⟩])) =
      Except.error (Err.valueError "there are columns with all missing values") := by
  rfl

/-- Claim C4, amended: for the non-constant strategies (`"mean"`,
`"median"`, `"most_frequent"`, `"max"`), `fit(T)` raises the all-null
validation error exactly when some column of `T` — target or not — is
entirely null; the restriction to target columns plays no role in the
check. -/
theorem claim_C4_all_null_any_column (i : SimpleImputerPicker) (T : Table)
    (hs : i.strategy = "mean" ∨ i.strategy = "median" ∨
      i.strategy = "most_frequent" ∨ i.strategy = "max") :
    SimpleImputerPicker.fit i T =
        Except.error (Err.valueError "there are columns with all missing values") ↔
      ∃ c ∈ T, ∀ v ∈ c.cells, v = Val.null := by
  rw [← anyColAllNull_iff]
  cases hb : anyColAllNull T with
  | true =>
    simp only [SimpleImputerPicker.fit, hb, if_true]
  | false =>
    simp only [SimpleImputerPicker.fit, hb, Bool.false_eq_true, if_false]
    constructor
    · intro h
      exfalso
      have hcols : ∀ cn ∈ cfgIterCols (i.cols_to_impute.getD
          (ImputeCfg.listCfg (columnNames T))) T, (columnNames T).contains cn = true := by
        intro cn hcn
        cases hcfg : i.cols_to_impute.getD (ImputeCfg.listCfg (columnNames T)) with
        | dictCfg d => rw [hcfg] at hcn; simp [cfgIterCols] at hcn
        | listCfg l =>
          rw [hcfg] at hcn
          simp only [cfgIterCols, List.mem_filter] at hcn
          simpa using hcn.2
      rcases hs with hs | hs | hs | hs <;> rw [hs] at h <;>
        simp only [show (("mean" : String) == "constant") = false from rfl,
          show (("median" : String) == "constant") = false from rfl,
          show (("most_frequent" : String) == "constant") = false from rfl,
          show (("max" : String) == "constant") = false from rfl,
          show (("mean" : String) == "mean") = true from rfl,
          show (("median" : String) == "mean") = false from rfl,
          show (("median" : String) == "median") = true from rfl,
          show (("most_frequent" : String) == "mean") = false from rfl,
          show (("most_frequent" : String) == "median") = false from rfl,
          show (("most_frequent" : String) == "most_frequent") = true from rfl,
          show (("max" : String) == "mean") = false from rfl,
          show (("max" : String) == "median") = false from rfl,
          show (("max" : String) == "most_frequent") = false from rfl,
          show (("max" : String) == "max") = true from rfl,
          Bool.false_eq_true, if_false, if_true, Bool.or_self, Bool.or_false,
          Bool.false_or, Bool.true_or, Bool.or_true] at h
      · rcases selectCols_ok T _ hcols with ⟨sub, hsub⟩
        rw [hsub, exceptBind_ok] at h
        exact Except.noConfusion h
      · rcases selectCols_ok T _ hcols with ⟨sub, hsub⟩
        rw [hsub, exceptBind_ok] at h
        exact Except.noConfusion h
      · rcases selectCols_ok T _ hcols with ⟨sub, hsub⟩
        rw [hsub, exceptBind_ok] at h
        exact Except.noConfusion h
      · rcases maxImputers_ok T _ hcols with ⟨m, hm⟩
        rw [hm, exceptBind_ok] at h
        exact Except.noConfusion h
    · intro h
      exact absurd h (by simp)

/-- Claim C4 witness for the amended theorem: strategy `"max"` targeting
column `"a"`, table with all-null non-target column `"b"`: fit raises. -/
theorem claim_C4_witness :
    SimpleImputerPicker.fit ⟨"max", some (ImputeCfg.listCfg ["a"]), none⟩
        [⟨"a", Dtype.plain, [Val.num 1]⟩, ⟨"b", Dtype.plain, [Val.null]⟩] =
      Except.error (Err.valueError "there are columns with all missing values") :=
  (claim_C4_all_null_any_column ⟨"max", some (ImputeCfg.listCfg ["a"]), none⟩
      [⟨"a", Dtype.plain, [Val.num 1]⟩, ⟨"b", Dtype.plain, [Val.null]⟩]
      (by simp)).mpr
    ⟨⟨"b", Dtype.plain, [Val.null]⟩, by simp, by simp⟩

/-! ## Claim C7 -/

unseal Rat.add Rat.sub Rat.mul Rat.inv

set_option maxRecDepth 100000 in
/-- Claim C7, confirmed.  (General part) For method `"iqr"`, any stored
threshold pair consists of values that occur in the observed column — the
clip targets are actual data values, never the synthetic bounds.
(Concrete part) On the column `[-51, 1..99, 151]` fit stores the pair
`(1, 99)` — the min/max of the observed values inside
`[Q1 - 1.5·IQR, Q3 + 1.5·IQR] = [-50, 150]`, not those bounds — and
fit-then-transform yields `[1, 1..99, 99]`, pulling each outlier to the
nearest in-bound observed value. -/
theorem claim_C7_iqr_observed_minmax :
    (∀ (cols : List String) (T : Table) (i1 : OutlierRemover) (cn : String) (lo hi : ℚ),
      OutlierRemover.fit ⟨cols, "iqr", none⟩ T = Except.ok i1 →
      (cn, some lo, some hi) ∈ i1.col_thresholds.getD [] →
      lo ∈ colNums (getColD T cn) ∧ hi ∈ colNums (getColD T cn)) ∧
    OutlierRemover.fit ⟨["col_1"], "iqr", none⟩ [⟨"col_1", Dtype.plain, c7Cells⟩] =
      Except.ok ⟨["col_1"], "iqr", some [("col_1", some 1, some 99)]⟩ ∧
    ((OutlierRemover.fit ⟨["col_1"], "iqr", none⟩ [⟨"col_1", Dtype.plain, c7Cells⟩]).bind
      (fun i1 => OutlierRemover.transformOut i1 [⟨"col_1", Dtype.plain, c7Cells⟩])) =
      Except.ok [⟨"col_1", Dtype.plain, c7Expected⟩] := by
  refine ⟨?_, by decide, by decide⟩
  intro cols T i1 cn lo hi hfit hmem
  rcases outlierFit_ok_elim _ _ _ hfit with ⟨hcols, hm, ths, hths, hok⟩
  rw [hths] at hmem
  simp only [Option.getD_some] at hmem
  rcases (outlierThresholds_ok_elim _ _ _ _ hok).2 _ hmem with ⟨s, hs, hlo, hhi⟩
  have hiqr : fitBoundsFilter "iqr" (colNums (getColD T cn)) =
      Except.ok ((colNums (getColD T cn)).filter (fun x =>
        decide (quantileQ (colNums (getColD T cn)) (1/4) -
            3/2 * (quantileQ (colNums (getColD T cn)) (3/4) -
              quantileQ (colNums (getColD T cn)) (1/4)) ≤ x)
        && decide (x ≤ quantileQ (colNums (getColD T cn)) (3/4) +
            3/2 * (quantileQ (colNums (getColD T cn)) (3/4) -
              quantileQ (colNums (getColD T cn)) (1/4))))) := rfl
  rw [hiqr] at hs
  have hseq : s = (colNums (getColD T cn)).filter (fun x =>
      decide (quantileQ (colNums (getColD T cn)) (1/4) -
          3/2 * (quantileQ (colNums (getColD T cn)) (3/4) -
            quantileQ (colNums (getColD T cn)) (1/4)) ≤ x)
      && decide (x ≤ quantileQ (colNums (getColD T cn)) (3/4) +
          3/2 * (quantileQ (colNums (getColD T cn)) (3/4) -
            quantileQ (colNums (getColD T cn)) (1/4)))) := by
    cases hs; rfl
  constructor
  · exact List.mem_of_mem_filter (hseq ▸ qmin?_mem s lo hlo.symm)
  · exact List.mem_of_mem_filter (hseq ▸ qmax?_mem s hi hhi.symm)

/-- Claim C7 witness: applying the general part at the concrete column:
both stored thresholds, 1 and 99, occur in the observed data. -/
theorem claim_C7_witness :
    (1 : ℚ) ∈ colNums (getColD [⟨"col_1", Dtype.plain, c7Cells⟩] "col_1") ∧
    (99 : ℚ) ∈ colNums (getColD [⟨"col_1", Dtype.plain, c7Cells⟩] "col_1") := by
  have h := claim_C7_iqr_observed_minmax.1 ["col_1"] [⟨"col_1", Dtype.plain, c7Cells⟩]
    ⟨["col_1"], "iqr", some [("col_1", some 1, some 99)]⟩ "col_1" 1 99
    claim_C7_iqr_observed_minmax.2.1 (by simp)
  exact h

/-! ## Claim C6 -/

theorem setCol_eq_self {T : Table} {c : Col}
    (h : ∀ c0 ∈ T, c0.name = c.name → c0 = c)
    (hmem : (columnNames T).contains c.name = true) : setCol T c = T := by
  simp only [setCol, hmem, if_true]
  have : ∀ l : Table, (∀ c0 ∈ l, c0.name = c.name → c0 = c) →
      l.map (fun c0 => if c0.name == c.name then c else c0) = l := by
    intro l
    induction l with
    | nil => intro _; rfl
    | cons c0 l ih =>
      intro hl
      simp only [List.map_cons]
      rw [ih (fun c1 hc1 => hl c1 (List.mem_cons_of_mem c0 hc1))]
      by_cases hn : c0.name = c.name
      · rw [hl c0 (List.mem_cons_self c0 l) hn]
        simp
      · simp only [List.cons.injEq, and_true]
        rw [if_neg (by simpa using hn)]
  exact this T h

theorem getCol?_props {T : Table} {cn : String} {c : Col}
    (h : getCol? T cn = some c) : c ∈ T ∧ c.name = cn := by
  simp only [getCol?] at h
  refine ⟨List.mem_of_find?_eq_some h, ?_⟩
  have := List.find?_some h
  simpa using this

theorem dictLookup_mem {β : Type} {m : List (String × β)} {cn : String} {v : β}
    (h : dictLookup m cn = Except.ok v) : (cn, v) ∈ m := by
  simp only [dictLookup] at h
  cases hfind : m.find? (fun p => p.1 == cn) with
  | none => rw [hfind] at h; exact Except.noConfusion h
  | some p =>
    rw [hfind] at h
    have hp1 : p.1 = cn := by simpa using List.find?_some hfind
    have hpm := List.mem_of_find?_eq_some hfind
    have hv : p.2 = v := by cases h; rfl
    have : (cn, v) = p := by
      cases p
      simp only at hp1 hv
      rw [hp1, hv]
    rw [this]
    exact hpm

theorem dictLookup_ok_of_mem_keys {β : Type} {m : List (String × β)} {cn : String}
    (h : cn ∈ m.map Prod.fst) : ∃ v, dictLookup m cn = Except.ok v := by
  simp only [dictLookup]
  cases hfind : m.find? (fun p => p.1 == cn) with
  | some p => exact ⟨p.2, rfl⟩
  | none =>
    rcases List.mem_map.mp h with ⟨p, hpm, hp1⟩
    have := List.find?_eq_none.mp hfind p hpm
    simp [hp1] at this

theorem clipVal_id {lo hi : Option ℚ} {v : Val}
    (h : ∀ q : ℚ, v = Val.num q → withinBounds lo hi q = true) :
    clipVal lo hi v = v := by
  cases v with
  | num q =>
    have hq := h q rfl
    simp only [withinBounds, Bool.and_eq_true] at hq
    simp only [clipVal]
    cases lo with
    | none =>
      cases hi with
      | none => rfl
      | some hb =>
        have hle : q ≤ hb := by simpa using hq.2
        show Val.num (ratMin q hb) = Val.num q
        rw [ratMin_eq_left hle]
    | some lb =>
      have hlb : lb ≤ q := by simpa using hq.1
      cases hi with
      | none =>
        show Val.num (ratMax q lb) = Val.num q
        rw [ratMax_eq_left hlb]
      | some hb =>
        have hhb : q ≤ hb := by simpa using hq.2
        show Val.num (ratMin (ratMax q lb) hb) = Val.num q
        rw [ratMax_eq_left hlb, ratMin_eq_left hhb]
  | str s => rfl
  | date y m d => rfl
  | null => rfl

theorem clipLoop_id (ths : List (String × Option ℚ × Option ℚ)) (T2 : Table)
    (hnodup : (columnNames T2).Nodup) :
    ∀ cols : List String,
      (∀ cn ∈ cols, (columnNames T2).contains cn = true) →
      (∀ cn ∈ cols, cn ∈ ths.map Prod.fst) →
      (∀ cn ∈ cols, ∀ lo hi, (cn, lo, hi) ∈ ths →
        ∀ q ∈ colNums (getColD T2 cn), withinBounds lo hi q = true) →
      (cols.foldlM (fun w cn => do
        let th ← dictLookup ths cn
        let c ← getColE w cn
        Except.ok (setCol w ⟨cn, c.dtype, c.cells.map (clipVal th.1 th.2)⟩)) T2) =
        Except.ok T2 := by
  intro cols
  induction cols with
  | nil => intro _ _ _; rfl
  | cons cn rest ih =>
    intro hpresent hkeys hbounds
    rcases dictLookup_ok_of_mem_keys (hkeys cn (List.mem_cons_self cn rest)) with ⟨th, hth⟩
    rcases getCol?_isSome T2 cn (hpresent cn (List.mem_cons_self cn rest)) with ⟨c, hc⟩
    have hgetE : getColE T2 cn = Except.ok c := by simp [getColE, hc]
    rcases getCol?_props hc with ⟨hcm, hcname⟩
    have hgetD : getColD T2 cn = c := by simp [getColD, hc]
    have hthmem : (cn, th.1, th.2) ∈ ths := by
      have := dictLookup_mem hth
      simpa using this
    have hcells : c.cells.map (clipVal th.1 th.2) = c.cells := by
      have hcong : ∀ v ∈ c.cells, clipVal th.1 th.2 v = id v := by
        intro v hv
        apply clipVal_id
        intro q hq
        apply hbounds cn (List.mem_cons_self cn rest) th.1 th.2 hthmem
        rw [hgetD]
        exact List.mem_filterMap.mpr ⟨Val.num q, hq ▸ hv, rfl⟩
      rw [List.map_congr_left hcong, List.map_id]
    have hcol : (⟨cn, c.dtype, c.cells.map (clipVal th.1 th.2)⟩ : Col) = c := by
      rw [hcells]
      cases c with
      | mk nm dt cl =>
        simp only at hcname
        rw [hcname]
    have hstep : setCol T2 ⟨cn, c.dtype, c.cells.map (clipVal th.1 th.2)⟩ = T2 := by
      rw [hcol]
      apply setCol_eq_self
      · intro c0 hc0 hname
        exact List.inj_on_of_nodup_map hnodup hc0 hcm hname
      · rw [hcname]
        exact hpresent cn (List.mem_cons_self cn rest)
    rw [List.foldlM_cons]
    simp only [hth, exceptBind_ok, hgetE, hstep]
    exact ih (fun n hn => hpresent n (List.mem_cons_of_mem cn hn))
      (fun n hn => hkeys n (List.mem_cons_of_mem cn hn))
      (fun n hn => hbounds n (List.mem_cons_of_mem cn hn))

/-- Claim C6, counterexample: an `OutlierRemover` with method `"skip"` fitted
on column values `[0, 10]` stores `(0, 10)` and `transform` CLIPS a later,
more extreme value 20 down to 10 — `"skip"` is not the identity on tables
other than ones within the fitted range. -/
theorem claim_C6_counterexample :
    ((OutlierRemover.fit ⟨["c"], "skip", none⟩
        [⟨"c", Dtype.plain, [Val.num 0, Val.num 10]⟩]).bind
      (fun i1 => OutlierRemover.transformOut i1 [⟨"c", Dtype.plain, [Val.num 20]⟩])) =
      Except.ok [⟨"c", Dtype.plain, [Val.num 10]⟩] := by
  decide

/-- Claim C6, amended: with method `"skip"`, `fit` stores the fit-time minimum and maximum of each
configured column (the skip "bounds" exclude nothing),
and `transform` is the identity exactly on tables whose values stay inside
that fitted range: under that condition (which holds in particular for the
fitting table itself) the transform returns the input table unchanged.
Values outside the fitted range are clipped to it (see the counterexample). -/
theorem claim_C6_skip_identity_within_fit_range (cols : List String)
    (T1 T2 : Table) (i1 : OutlierRemover)
    (hfit : OutlierRemover.fit ⟨cols, "skip", none⟩ T1 = Except.ok i1) :
    (∀ cn lo hi, (cn, lo, hi) ∈ i1.col_thresholds.getD [] →
      lo = qmin? (colNums (getColD T1 cn)) ∧ hi = qmax? (colNums (getColD T1 cn))) ∧
    ((columnNames T2).Nodup →
     i1.cols_to_transform ≠ [] →
     (∀ cn ∈ i1.cols_to_transform, (columnNames T2).contains cn = true) →
     (∀ cn ∈ i1.cols_to_transform, ∀ q ∈ colNums (getColD T2 cn),
       withinBounds (qmin? (colNums (getColD T1 cn)))
         (qmax? (colNums (getColD T1 cn))) q = true) →
     OutlierRemover.transform i1 T2 = Except.ok (T2, T2)) := by
  rcases outlierFit_ok_elim _ _ _ hfit with ⟨hcols, hmeth, ths, hths, hok⟩
  rcases outlierThresholds_ok_elim _ _ _ _ hok with ⟨hfst, hmem⟩
  have hminmax : ∀ cn lo hi, (cn, lo, hi) ∈ ths →
      lo = qmin? (colNums (getColD T1 cn)) ∧ hi = qmax? (colNums (getColD T1 cn)) := by
    intro cn lo hi hmem2
    rcases hmem _ hmem2 with ⟨s, hs, hlo, hhi⟩
    rw [fitBoundsFilter_skip] at hs
    have hseq : s = colNums (getColD T1 cn) := by cases hs; rfl
    rw [hseq] at hlo hhi
    exact ⟨hlo, hhi⟩
  constructor
  · intro cn lo hi hmem2
    rw [hths] at hmem2
    simp only [Option.getD_some] at hmem2
    exact hminmax cn lo hi hmem2
  · intro hnodup hne hpresent hin
    have hkeyseq : ths.map Prod.fst = i1.cols_to_transform := by rw [hfst, hcols]
    have hfalsy : optListFalsy (some ths) = false := by
      cases hthsnil : ths with
      | nil =>
        exfalso
        apply hne
        rw [← hkeyseq, hthsnil]
        rfl
      | cons a l => rfl
    have hloop := clipLoop_id ths T2 hnodup i1.cols_to_transform hpresent
      (by intro cn hcn; rw [hkeyseq]; exact hcn)
      (by
        intro cn hcn lo hi hmem2 q hq
        rcases hminmax cn lo hi hmem2 with ⟨hlo, hhi⟩
        rw [hlo, hhi]
        exact hin cn hcn q hq)
    simp only [OutlierRemover.transform, check_transform, outlierOps, runOps,
      tableCopy, hths, Option.getD_some, hfalsy, Bool.and_false, Bool.false_eq_true,
      if_false, exceptBind_ok, hloop]

/-- Claim C6 witness: fit `"skip"` on `[0, 10]`, transform a table whose value
5 lies within the fitted range: the table comes back unchanged. -/
theorem claim_C6_witness :
    OutlierRemover.transform ⟨["c"], "skip", some [("c", some 0, some 10)]⟩
        [⟨"c", Dtype.plain, [Val.num 5]⟩] =
      Except.ok ([⟨"c", Dtype.plain, [Val.num 5]⟩], [⟨"c", Dtype.plain, [Val.num 5]⟩]) :=
  (claim_C6_skip_identity_within_fit_range ["c"]
      [⟨"c", Dtype.plain, [Val.num 0, Val.num 10]⟩]
      [⟨"c", Dtype.plain, [Val.num 5]⟩]
      ⟨["c"], "skip", some [("c", some 0, some 10)]⟩
      (by decide)).2
    (by decide) (by decide) (by decide) (by decide)

/-! ## Claim C8 -/

/-- Claim C8, confirmed: for every component and every instance, `transform`
leaves the table of the caller untouched: the final value of the input variable
`X` equals the value passed in, whenever the call returns at all.  Every
statement of every transform body writes the local copy `X_` (all ops of the bodies target `PVar.work`), so the returned input-side table is the
original.  Stated via `Except.map`: on the success path the first component
of the result — the input object after the call — is the unchanged input. -/
theorem claim_C8_transform_pure :
    (∀ (i : CalendarExtractor) (X : Table),
      (CalendarExtractor.transform i X).map Prod.fst =
        (CalendarExtractor.transform i X).map (fun _ => X)) ∧
    (∀ (i : NoInfoFeatureRemover) (X : Table),
      (NoInfoFeatureRemover.transform i X).map Prod.fst =
        (NoInfoFeatureRemover.transform i X).map (fun _ => X)) ∧
    (∀ (i : OutlierRemover) (X : Table),
      (OutlierRemover.transform i X).map Prod.fst =
        (OutlierRemover.transform i X).map (fun _ => X)) ∧
    (∀ (i : WithAnotherColumnImputer) (X : Table),
      (WithAnotherColumnImputer.transform i X).map Prod.fst =
        (WithAnotherColumnImputer.transform i X).map (fun _ => X)) ∧
    (∀ (i : CatCaster) (X : Table),
      (CatCaster.transform i X).map Prod.fst =
        (CatCaster.transform i X).map (fun _ => X)) ∧
    (∀ (i : FeaturesOrder) (X : Table),
      (FeaturesOrder.transform i X).map Prod.fst =
        (FeaturesOrder.transform i X).map (fun _ => X)) ∧
    (∀ (sem : String → Table → Table → Table) (i : ScalerPicker) (X : Table),
      (ScalerPicker.transform sem i X).map Prod.fst =
        (ScalerPicker.transform sem i X).map (fun _ => X)) ∧
    (∀ (sem : FittedImputer → Table → Table) (i : SimpleImputerPicker) (X : Table),
      (SimpleImputerPicker.transform sem i X).map Prod.fst =
        (SimpleImputerPicker.transform sem i X).map (fun _ => X)) := by
  refine ⟨?_, ?_, ?_, ?_, ?_, ?_, ?_, ?_⟩
  · intro i X
    exact check_then_runOps_fst _ (calendarOps i) (by
      intro op hop
      simp only [calendarOps, List.mem_cons, List.not_mem_nil, or_false] at hop
      rcases hop with rfl | rfl | rfl <;> rfl) X
  · intro i X
    exact check_then_runOps_fst _ (noInfoOps i) (by
      intro op hop
      simp only [noInfoOps, List.mem_cons, List.not_mem_nil, or_false] at hop
      rcases hop with rfl <;> rfl) X
  · intro i X
    exact check_then_runOps_fst _ (outlierOps i) (by
      intro op hop
      simp only [outlierOps, List.mem_cons, List.not_mem_nil, or_false] at hop
      rcases hop with rfl | rfl <;> rfl) X
  · intro i X
    exact check_then_runOps_fst _ (anotherColOps i) (by
      intro op hop
      simp only [anotherColOps, List.mem_cons, List.not_mem_nil, or_false] at hop
      rcases hop with rfl | rfl <;> rfl) X
  · intro i X
    exact check_then_runOps_fst _ (catCasterOps i) (by
      intro op hop
      simp only [catCasterOps, List.mem_cons, List.not_mem_nil, or_false] at hop
      rcases hop with rfl | rfl <;> rfl) X
  · intro i X
    exact check_then_runOps_fst _ (featuresOrderOps i) (by
      intro op hop
      simp only [featuresOrderOps, List.mem_cons, List.not_mem_nil, or_false] at hop
      rcases hop with rfl <;> rfl) X
  · intro sem i X
    exact check_then_runOps_fst _ (scalerOps sem i) (by
      intro op hop
      cases hsc : i.scaler with
      | none =>
        simp only [scalerOps, hsc, List.mem_cons, List.not_mem_nil, or_false] at hop
        rcases hop with rfl <;> rfl
      | some st =>
        cases st with
        | skip =>
          simp only [scalerOps, hsc, List.mem_cons, List.not_mem_nil, or_false] at hop
          rcases hop with rfl <;> rfl
        | fitted t d =>
          simp only [scalerOps, hsc, List.mem_cons, List.not_mem_nil, or_false] at hop
          rcases hop with rfl | rfl <;> rfl) X
  · intro sem i X
    exact check_then_runOps_fst _ (simpleImputerOps sem i) (by
      intro op hop
      simp only [simpleImputerOps, List.mem_cons, List.not_mem_nil, or_false] at hop
      rcases hop with rfl | rfl <;> rfl) X

/-! ## Claim C10 -/

theorem scalerFit_ok_elim (i i' : ScalerPicker) (X : Table)
    (h : ScalerPicker.fit i X = Except.ok i') :
    i'.cols_to_scale =
      i.cols_to_scale.filter (fun cn => (columnNames X).contains cn) := by
  simp only [ScalerPicker.fit] at h
  cases hk : getScalerClass i.scaler_type with
  | error e => rw [hk, exceptBind_error] at h; exact Except.noConfusion h
  | ok k =>
    rw [hk, exceptBind_ok] at h
    cases k with
    | some st =>
      cases hsel : selectCols X
          (i.cols_to_scale.filter (fun cn => (columnNames X).contains cn)) with
      | error e =>
        simp only [hsel, exceptBind_error] at h
        exact Except.noConfusion h
      | ok sub =>
        simp only [hsel, exceptBind_ok, Except.ok.injEq] at h
        rw [← h]
    | none =>
      simp only [Except.ok.injEq] at h
      rw [← h]

/-- Claim C10, confirmed: for OutlierRemover, ScalerPicker, CatCaster and
WithAnotherColumnImputer, `fit` overwrites the constructor-supplied column
configuration with its restriction to the columns of the fitting table.  Fitting
first on `T1` lacking a configured column `c` and re-fitting on `T2`
containing `c` learns nothing for `c` (it is gone from both the column list
and the learned per-column state), while a fresh instance fitted directly on
`T2` does learn `c`. -/
theorem claim_C10_fit_overwrites_config (c : String) (T1 T2 : Table)
    (h1 : (columnNames T1).contains c = false)
    (h2 : (columnNames T2).contains c = true) :
    (∀ (cols : List String) (m : String) (i1 i2 i2f : OutlierRemover),
      c ∈ cols →
      OutlierRemover.fit ⟨cols, m, none⟩ T1 = Except.ok i1 →
      OutlierRemover.fit i1 T2 = Except.ok i2 →
      OutlierRemover.fit ⟨cols, m, none⟩ T2 = Except.ok i2f →
      (c ∉ i2.cols_to_transform ∧ c ∉ (i2.col_thresholds.getD []).map Prod.fst) ∧
      (c ∈ i2f.cols_to_transform ∧ c ∈ (i2f.col_thresholds.getD []).map Prod.fst)) ∧
    (∀ (cols : List String) (st : String) (i1 i2 i2f : ScalerPicker),
      c ∈ cols →
      ScalerPicker.fit (mkScalerPicker cols st) T1 = Except.ok i1 →
      ScalerPicker.fit i1 T2 = Except.ok i2 →
      ScalerPicker.fit (mkScalerPicker cols st) T2 = Except.ok i2f →
      c ∉ i2.cols_to_scale ∧ c ∈ i2f.cols_to_scale) ∧
    (∀ cols : List String, c ∈ cols →
      c ∉ (CatCaster.fit (CatCaster.fit (mkCatCaster cols) T1) T2).cols_to_cast ∧
      c ∈ (CatCaster.fit (mkCatCaster cols) T2).cols_to_cast) ∧
    (∀ d : List (String × String), c ∈ d.map Prod.fst →
      c ∉ ((WithAnotherColumnImputer.fit
            (WithAnotherColumnImputer.fit ⟨d⟩ T1) T2).cols_to_impute.map Prod.fst) ∧
      c ∈ ((WithAnotherColumnImputer.fit ⟨d⟩ T2).cols_to_impute.map Prod.fst)) := by
  have hnotfilter1 : ∀ l : List String,
      c ∉ l.filter (fun cn => (columnNames T1).contains cn) := by
    intro l hmem
    have := (List.mem_filter.mp hmem).2
    rw [h1] at this
    exact Bool.noConfusion this
  have hfilter2 : ∀ l : List String, c ∈ l →
      c ∈ l.filter (fun cn => (columnNames T2).contains cn) := by
    intro l hl
    exact List.mem_filter.mpr ⟨hl, h2⟩
  refine ⟨?_, ?_, ?_, ?_⟩
  · intro cols m i1 i2 i2f hc hf1 hf2 hff
    rcases outlierFit_ok_elim _ _ _ hf1 with ⟨hc1, hm1, ths1, hth1, hok1⟩
    rcases outlierFit_ok_elim _ _ _ hf2 with ⟨hc2, hm2, ths2, hth2, hok2⟩
    rcases outlierFit_ok_elim _ _ _ hff with ⟨hcf, hmf, thsf, hthf, hokf⟩
    have hkeys2 := (outlierThresholds_ok_elim _ _ _ _ hok2).1
    have hkeysf := (outlierThresholds_ok_elim _ _ _ _ hokf).1
    constructor
    · constructor
      · rw [hc2]
        intro hmem
        exact hnotfilter1 cols (hc1 ▸ (List.mem_filter.mp hmem).1)
      · rw [hth2]
        simp only [Option.getD_some]
        rw [hkeys2, ← hc2]
        rw [hc2]
        intro hmem
        exact hnotfilter1 cols (hc1 ▸ (List.mem_filter.mp hmem).1)
    · constructor
      · rw [hcf]
        exact hfilter2 cols hc
      · rw [hthf]
        simp only [Option.getD_some]
        rw [hkeysf]
        exact hfilter2 cols hc
  · intro cols st i1 i2 i2f hc hf1 hf2 hff
    have hc1 := scalerFit_ok_elim _ _ _ hf1
    have hc2 := scalerFit_ok_elim _ _ _ hf2
    have hcf := scalerFit_ok_elim _ _ _ hff
    constructor
    · rw [hc2]
      intro hmem
      exact hnotfilter1 cols (hc1 ▸ (List.mem_filter.mp hmem).1)
    · rw [hcf]
      exact hfilter2 cols hc
  · intro cols hc
    constructor
    · simp only [CatCaster.fit, mkCatCaster]
      intro hmem
      exact hnotfilter1 cols (List.mem_filter.mp hmem).1
    · simp only [CatCaster.fit, mkCatCaster]
      exact hfilter2 cols hc
  · intro d hc
    constructor
    · simp only [WithAnotherColumnImputer.fit]
      intro hmem
      rcases List.mem_map.mp hmem with ⟨p, hpm, hp1⟩
      have hp := (List.mem_filter.mp (List.mem_filter.mp hpm).1).2
      rw [hp1, h1] at hp
      exact Bool.noConfusion hp
    · simp only [WithAnotherColumnImputer.fit]
      rcases List.mem_map.mp hc with ⟨p, hpm, hp1⟩
      refine List.mem_map.mpr ⟨p, List.mem_filter.mpr ⟨hpm, ?_⟩, hp1⟩
      rw [hp1]
      exact h2

/-- Claim C10 witness: configuration `["c"]` (mapping `{"c": "a"}` for
WithAnotherColumnImputer), `T1` with only column `"a"`, `T2` with column
`"c"`: the refit instance has learned nothing about `"c"`, while a fresh
fit on `T2` learns it. -/
theorem claim_C10_witness :
    (("c" ∉ (⟨[], "iqr", some []⟩ : OutlierRemover).cols_to_transform ∧
      "c" ∉ ((⟨[], "iqr", some []⟩ : OutlierRemover).col_thresholds.getD []).map Prod.fst) ∧
     ("c" ∈ (⟨["c"], "iqr", some [("c", none, none)]⟩ : OutlierRemover).cols_to_transform ∧
      "c" ∈ ((⟨["c"], "iqr", some [("c", none, none)]⟩ : OutlierRemover).col_thresholds.getD []).map Prod.fst)) ∧
    ("c" ∉ (⟨[], "standard", some (ScalerState.fitted "standard" [])⟩ : ScalerPicker).cols_to_scale ∧
     "c" ∈ (⟨["c"], "standard", some (ScalerState.fitted "standard" [⟨"c", Dtype.plain, []⟩])⟩ : ScalerPicker).cols_to_scale) ∧
    ("c" ∉ (CatCaster.fit (CatCaster.fit (mkCatCaster ["c"]) [⟨"a", Dtype.plain, []⟩]) [⟨"c", Dtype.plain, []⟩]).cols_to_cast ∧
     "c" ∈ (CatCaster.fit (mkCatCaster ["c"]) [⟨"c", Dtype.plain, []⟩]).cols_to_cast) ∧
    ("c" ∉ ((WithAnotherColumnImputer.fit (WithAnotherColumnImputer.fit ⟨[("c", "a")]⟩ [⟨"a", Dtype.plain, []⟩]) [⟨"c", Dtype.plain, []⟩]).cols_to_impute.map Prod.fst) ∧
     "c" ∈ ((WithAnotherColumnImputer.fit ⟨[("c", "a")]⟩ [⟨"c", Dtype.plain, []⟩]).cols_to_impute.map Prod.fst)) := by
  have h := claim_C10_fit_overwrites_config "c" [⟨"a", Dtype.plain, []⟩]
    [⟨"c", Dtype.plain, []⟩] (by decide) (by decide)
  refine ⟨?_, ?_, ?_, ?_⟩
  · exact h.1 ["c"] "iqr" ⟨[], "iqr", some []⟩ ⟨[], "iqr", some []⟩
      ⟨["c"], "iqr", some [("c", none, none)]⟩ (by decide) (by decide) (by decide) (by decide)
  · exact h.2.1 ["c"] "standard" ⟨[], "standard", some (ScalerState.fitted "standard" [])⟩
      ⟨[], "standard", some (ScalerState.fitted "standard" [])⟩
      ⟨["c"], "standard", some (ScalerState.fitted "standard" [⟨"c", Dtype.plain, []⟩])⟩
      (by decide) (by decide) (by decide) (by decide)
  · exact h.2.2.1 ["c"] (by decide)
  · exact h.2.2.2 [("c", "a")] (by decide)
